import Mathlib

/-!
Shallow embedding of the `tas-plant-passport` repository: the commodity/pest
database (`tas_data.py`, `data/table_1.py`), the fruit-fly assessment tool
(`tas_tools.py`), the data cleaner (`utils/data_cleaner.py`) and the retrieval
configuration (`tas_index.py`), together with theorems settling the claims
about them.
-/

namespace TasPP

/-- Python strings are modelled as lists of characters. -/
abbrev Str := List Char

/-- Embed a Lean string literal into the model. -/
def s (x : String) : Str := x.toList

/-- Python `str.lower()` (the data in this repository is ASCII). -/
def lower (t : Str) : Str := t.map Char.toLower

/-- Whitespace test used by Python `str.strip()` on this repository's data. -/
def ws (c : Char) : Bool := c.isWhitespace

/-- Python `str.strip()`: remove leading and trailing whitespace. -/
def strip (t : Str) : Str := ((t.dropWhile ws).reverse.dropWhile ws).reverse

/-- Python truthiness of an `Optional[str]`: `None` and `""` are falsy. -/
def truthy (o : Option Str) : Bool :=
  match o with
  | none => false
  | some t => !t.isEmpty

/-! ### Python dictionaries

A Python `dict` is modelled as an insertion-ordered association list whose
keys are kept unique by the insertion operation (overwriting keeps the
original position, as in CPython). -/

/-- Python dict with string keys. -/
abbrev Dict (V : Type) := List (Str × V)

/-- Python `d.get(k)` / `d[k]` lookup. -/
def dget {V : Type} (d : Dict V) (k : Str) : Option V :=
  (d.find? (fun p => p.1 == k)).map (·.2)

/-- Python `k in d`. -/
def dmem {V : Type} (d : Dict V) (k : Str) : Bool :=
  d.any (fun p => p.1 == k)

/-- Python `d[k] = v`: overwrite in place, or append a new entry. -/
def dinsert {V : Type} (d : Dict V) (k : Str) (v : V) : Dict V :=
  if dmem d k then d.map (fun p => if p.1 == k then (k, v) else p)
  else d ++ [(k, v)]

/-- Python in-place mutation of the value stored under `k` (a no-op when the
key is absent). -/
def dmodify {V : Type} (d : Dict V) (k : Str) (f : V → V) : Dict V :=
  d.map (fun p => if p.1 == k then (p.1, f p.2) else p)

/-- Python `d.values()`. -/
def dvalues {V : Type} (d : Dict V) : List V := d.map (·.2)

/-- Python dict-literal construction: entries are inserted left to right, so
duplicate keys collapse to one entry at the position of the first occurrence
holding the last value. -/
def dictLit {V : Type} (ps : List (Str × V)) : Dict V :=
  ps.foldl (fun d p => dinsert d p.1 p.2) []

/-- Does `t` start with `pat`? -/
def leadsWith : Str → Str → Bool
  | [], _ => true
  | _ :: _, [] => false
  | a :: ps, b :: ts => a == b && leadsWith ps ts

/-- Python substring test `pat in t`. -/
def pyIn (pat : Str) : Str → Bool
  | [] => pat.isEmpty
  | c :: rest => leadsWith pat (c :: rest) || pyIn pat rest

/-- The plural-to-singular entries exactly as written in the Python dict literal of `_normalize_commodity_name` (`tas_tools.py`, lines 17-252), duplicates included. -/
def plural_entries : List (Str × Str) := [
    (s "apples", s "apple"),
    (s "grapes", s "grape"),
    (s "strawberries", s "strawberry"),
    (s "bananas", s "banana"),
    (s "oranges", s "sweet orange"),
    (s "lemons", s "lemon"),
    (s "limes", s "lime"),
    (s "peaches", s "peach"),
    (s "nectarines", s "nectarine"),
    (s "plums", s "plum"),
    (s "cherries", s "sweet cherry"),
    (s "apricots", s "apricot"),
    (s "pears", s "pear"),
    (s "mangoes", s "mango"),
    (s "mangos", s "mango"),
    (s "avocados", s "avocado"),
    (s "tomatoes", s "tomato"),
    (s "capsicums", s "capsicum"),
    (s "chillies", s "chilli"),
    (s "chilis", s "chilli"),
    (s "papayas", s "papaya"),
    (s "guavas", s "guava"),
    (s "lychees", s "lychee"),
    (s "longans", s "longan"),
    (s "rambutans", s "rambutan"),
    (s "passionfruits", s "passionfruit"),
    (s "dragonfruits", s "dragon fruit"),
    (s "dragon fruits", s "dragon fruit"),
    (s "custard apples", s "custard apple"),
    (s "breadfruits", s "breadfruit"),
    (s "jackfruits", s "jackfruit"),
    (s "starfruits", s "star fruit"),
    (s "star fruits", s "star fruit"),
    (s "feijoas", s "feijoa"),
    (s "kiwifruits", s "kiwifruit"),
    (s "kiwi fruits", s "kiwifruit"),
    (s "persimmons", s "persimmon"),
    (s "figs", s "fig"),
    (s "quinces", s "quince"),
    (s "tamarillos", s "tamarillo"),
    (s "loquats", s "loquat"),
    (s "kumquats", s "kumquat"),
    (s "pomegranates", s "pomegranate"),
    (s "nashis", s "nashi"),
    (s "rollinias", s "rollinia"),
    (s "blackberries", s "blackberry"),
    (s "raspberries", s "raspberry"),
    (s "loganberries", s "loganberry"),
    (s "boysenberries", s "boysenberry"),
    (s "youngberries", s "youngberry"),
    (s "blueberries", s "blueberry"),
    (s "dates", s "date"),
    (s "olives", s "olive"),
    (s "coffee cherries", s "coffee cherry"),
    (s "coffee beans", s "coffee cherry"),
    (s "eggplants", s "eggplant"),
    (s "aubergines", s "eggplant"),
    (s "pepinos", s "pepino"),
    (s "table grapes", s "grape"),
    (s "wine grapes", s "grape"),
    (s "seedless grapes", s "grape"),
    (s "red grapes", s "grape"),
    (s "white grapes", s "grape"),
    (s "green grapes", s "grape"),
    (s "black grapes", s "grape"),
    (s "sweet oranges", s "sweet orange"),
    (s "navel oranges", s "sweet orange"),
    (s "valencia oranges", s "sweet orange"),
    (s "blood oranges", s "sweet orange"),
    (s "mandarins", s "mandarin"),
    (s "tangerines", s "mandarin"),
    (s "clementines", s "mandarin"),
    (s "satsumas", s "mandarin"),
    (s "grapefruits", s "grapefruit"),
    (s "pink grapefruits", s "grapefruit"),
    (s "white grapefruits", s "grapefruit"),
    (s "red grapefruits", s "grapefruit"),
    (s "pomelos", s "pummelo"),
    (s "pummelos", s "pummelo"),
    (s "tangelos", s "tangelo"),
    (s "citrons", s "citron"),
    (s "meyer lemons", s "meyer lemon"),
    (s "rangpur limes", s "rangpur lime"),
    (s "tahitian limes", s "tahitian lime"),
    (s "seville oranges", s "seville orange"),
    (s "desert limes", s "desert lime"),
    (s "japanese plums", s "japanese plum"),
    (s "sour cherries", s "sour cherry"),
    (s "plumcots", s "plumcot"),
    (s "peacharines", s "peacharine"),
    (s "black sapotes", s "black sapote"),
    (s "white sapotes", s "white sapote"),
    (s "star apples", s "star apple"),
    (s "rose apples", s "rose apple"),
    (s "mountain apples", s "mountain apple"),
    (s "wax apples", s "wax apple"),
    (s "spanish cherries", s "spanish cherry"),
    (s "madagascar olives", s "madagascar olive"),
    (s "bourbon oranges", s "bourbon orange"),
    (s "mamey sapotes", s "mamey sapote"),
    (s "surinam cherries", s "surinam cherry"),
    (s "grumichamas", s "grumichama"),
    (s "jaboticabas", s "jaboticaba"),
    (s "monsteras", s "monstera"),
    (s "mulberries", s "mulberry"),
    (s "mock oranges", s "mock orange"),
    (s "granadillas", s "granadilla"),
    (s "cape gooseberries", s "cape gooseberry"),
    (s "abius", s "abiu"),
    (s "durians", s "durian"),
    (s "mangosteens", s "mangosteen"),
    (s "walnuts", s "walnut"),
    (s "aceroas", s "acerola"),
    (s "crab apples", s "crab apple"),
    (s "sapodillas", s "sapodilla"),
    (s "japanese persimmons", s "japanese persimmon"),
    (s "tropical almonds", s "tropical almond"),
    (s "chebulic myrobalans", s "chebulic myrobalan"),
    (s "cacaos", s "cacao"),
    (s "cashew apples", s "cashew apple"),
    (s "cherimoyas", s "cherimoya"),
    (s "pond apples", s "pond apple"),
    (s "soursops", s "soursop"),
    (s "akee apples", s "akee apple"),
    (s "babacos", s "babaco"),
    (s "natal plums", s "natal plum"),
    (s "hawthorns", s "hawthorn"),
    (s "excelsa coffees", s "excelsa coffee"),
    (s "liberian coffees", s "liberian coffee"),
    (s "robusta coffees", s "robusta coffee"),
    (s "lilly pillies", s "lilly pilly"),
    (s "jerusalem cherries", s "jerusalem cherry"),
    (s "jew plums", s "jew plum"),
    (s "jambus", s "jambu"),
    (s "tahitian limes", s "tahitian lime"),
    (s "rangpur limes", s "rangpur lime"),
    (s "meyer lemons", s "meyer lemon"),
    (s "seville oranges", s "seville orange"),
    (s "desert limes", s "desert lime"),
    (s "pummelos", s "pummelo"),
    (s "tahitian limes", s "tahitian lime"),
    (s "citrons", s "citron"),
    (s "meyer lemons", s "meyer lemon"),
    (s "grapefruits", s "grapefruit"),
    (s "mandarins", s "mandarin"),
    (s "rangpur limes", s "rangpur lime"),
    (s "sweet oranges", s "sweet orange"),
    (s "tangelos", s "tangelo"),
    (s "coffee cherries", s "coffee cherry"),
    (s "excelsa coffees", s "excelsa coffee"),
    (s "liberian coffees", s "liberian coffee"),
    (s "robusta coffees", s "robusta coffee"),
    (s "hawthorns", s "hawthorn"),
    (s "quinces", s "quince"),
    (s "tamarillos", s "tamarillo"),
    (s "persimmons", s "persimmon"),
    (s "black sapotes", s "black sapote"),
    (s "japanese persimmons", s "japanese persimmon"),
    (s "durians", s "durian"),
    (s "loquats", s "loquat"),
    (s "grumichamas", s "grumichama"),
    (s "surinam cherries", s "surinam cherry"),
    (s "longans", s "longan"),
    (s "figs", s "fig"),
    (s "kumquats", s "kumquat"),
    (s "strawberries", s "strawberry"),
    (s "mangosteens", s "mangosteen"),
    (s "dragonfruits", s "dragon fruit"),
    (s "dragon fruits", s "dragon fruit"),
    (s "walnuts", s "walnut"),
    (s "lychees", s "lychee"),
    (s "aceroas", s "acerola"),
    (s "apples", s "apple"),
    (s "crab apples", s "crab apple"),
    (s "mangoes", s "mango"),
    (s "mangos", s "mango"),
    (s "sapodillas", s "sapodilla"),
    (s "spanish cherries", s "spanish cherry"),
    (s "monsteras", s "monstera"),
    (s "mulberries", s "mulberry"),
    (s "mock oranges", s "mock orange"),
    (s "bananas", s "banana"),
    (s "jaboticabas", s "jaboticaba"),
    (s "rambutans", s "rambutan"),
    (s "madagascar olives", s "madagascar olive"),
    (s "bourbon oranges", s "bourbon orange"),
    (s "olives", s "olive"),
    (s "prickly pears", s "prickly pear"),
    (s "passionfruits", s "passionfruit"),
    (s "granadillas", s "granadilla"),
    (s "avocados", s "avocado"),
    (s "dates", s "date"),
    (s "cape gooseberries", s "cape gooseberry"),
    (s "mamey sapotes", s "mamey sapote"),
    (s "almonds", s "almond"),
    (s "apricots", s "apricot"),
    (s "sweet cherries", s "sweet cherry"),
    (s "sour cherries", s "sour cherry"),
    (s "plums", s "plum"),
    (s "plumcots", s "plumcot"),
    (s "peaches", s "peach"),
    (s "nectarines", s "nectarine"),
    (s "peacharines", s "peacharine"),
    (s "guavas", s "guava"),
    (s "pomegranates", s "pomegranate"),
    (s "nashis", s "nashi"),
    (s "pears", s "pear"),
    (s "rollinias", s "rollinia"),
    (s "blackberries", s "blackberry"),
    (s "raspberries", s "raspberry"),
    (s "loganberries", s "loganberry"),
    (s "boysenberries", s "boysenberry"),
    (s "youngberries", s "youngberry"),
    (s "tomatoes", s "tomato"),
    (s "eggplants", s "eggplant"),
    (s "pepinos", s "pepino"),
    (s "jerusalem cherries", s "jerusalem cherry"),
    (s "jew plums", s "jew plum"),
    (s "mombins", s "mombin"),
    (s "jambus", s "jambu"),
    (s "rose apples", s "rose apple"),
    (s "mountain apples", s "mountain apple"),
    (s "wax apples", s "wax apple"),
    (s "lilly pillies", s "lilly pilly"),
    (s "tropical almonds", s "tropical almond"),
    (s "chebulic myrobalans", s "chebulic myrobalan"),
    (s "cacaos", s "cacao"),
    (s "blueberries", s "blueberry"),
    (s "grapes", s "grape")
]



/-- The `plural_to_singular` dictionary of `_normalize_commodity_name`, as
Python dict construction builds it from the literal: duplicated keys keep
the position of their first occurrence and the value of their last one
(every duplicated key in this literal is bound to one same value). The
theorem `plural_to_singular_eq_dictLit` below certifies this table against
the verbatim entry list `plural_entries`. -/
def plural_to_singular : Dict Str := [
    (s "apples", s "apple"),
    (s "grapes", s "grape"),
    (s "strawberries", s "strawberry"),
    (s "bananas", s "banana"),
    (s "oranges", s "sweet orange"),
    (s "lemons", s "lemon"),
    (s "limes", s "lime"),
    (s "peaches", s "peach"),
    (s "nectarines", s "nectarine"),
    (s "plums", s "plum"),
    (s "cherries", s "sweet cherry"),
    (s "apricots", s "apricot"),
    (s "pears", s "pear"),
    (s "mangoes", s "mango"),
    (s "mangos", s "mango"),
    (s "avocados", s "avocado"),
    (s "tomatoes", s "tomato"),
    (s "capsicums", s "capsicum"),
    (s "chillies", s "chilli"),
    (s "chilis", s "chilli"),
    (s "papayas", s "papaya"),
    (s "guavas", s "guava"),
    (s "lychees", s "lychee"),
    (s "longans", s "longan"),
    (s "rambutans", s "rambutan"),
    (s "passionfruits", s "passionfruit"),
    (s "dragonfruits", s "dragon fruit"),
    (s "dragon fruits", s "dragon fruit"),
    (s "custard apples", s "custard apple"),
    (s "breadfruits", s "breadfruit"),
    (s "jackfruits", s "jackfruit"),
    (s "starfruits", s "star fruit"),
    (s "star fruits", s "star fruit"),
    (s "feijoas", s "feijoa"),
    (s "kiwifruits", s "kiwifruit"),
    (s "kiwi fruits", s "kiwifruit"),
    (s "persimmons", s "persimmon"),
    (s "figs", s "fig"),
    (s "quinces", s "quince"),
    (s "tamarillos", s "tamarillo"),
    (s "loquats", s "loquat"),
    (s "kumquats", s "kumquat"),
    (s "pomegranates", s "pomegranate"),
    (s "nashis", s "nashi"),
    (s "rollinias", s "rollinia"),
    (s "blackberries", s "blackberry"),
    (s "raspberries", s "raspberry"),
    (s "loganberries", s "loganberry"),
    (s "boysenberries", s "boysenberry"),
    (s "youngberries", s "youngberry"),
    (s "blueberries", s "blueberry"),
    (s "dates", s "date"),
    (s "olives", s "olive"),
    (s "coffee cherries", s "coffee cherry"),
    (s "coffee beans", s "coffee cherry"),
    (s "eggplants", s "eggplant"),
    (s "aubergines", s "eggplant"),
    (s "pepinos", s "pepino"),
    (s "table grapes", s "grape"),
    (s "wine grapes", s "grape"),
    (s "seedless grapes", s "grape"),
    (s "red grapes", s "grape"),
    (s "white grapes", s "grape"),
    (s "green grapes", s "grape"),
    (s "black grapes", s "grape"),
    (s "sweet oranges", s "sweet orange"),
    (s "navel oranges", s "sweet orange"),
    (s "valencia oranges", s "sweet orange"),
    (s "blood oranges", s "sweet orange"),
    (s "mandarins", s "mandarin"),
    (s "tangerines", s "mandarin"),
    (s "clementines", s "mandarin"),
    (s "satsumas", s "mandarin"),
    (s "grapefruits", s "grapefruit"),
    (s "pink grapefruits", s "grapefruit"),
    (s "white grapefruits", s "grapefruit"),
    (s "red grapefruits", s "grapefruit"),
    (s "pomelos", s "pummelo"),
    (s "pummelos", s "pummelo"),
    (s "tangelos", s "tangelo"),
    (s "citrons", s "citron"),
    (s "meyer lemons", s "meyer lemon"),
    (s "rangpur limes", s "rangpur lime"),
    (s "tahitian limes", s "tahitian lime"),
    (s "seville oranges", s "seville orange"),
    (s "desert limes", s "desert lime"),
    (s "japanese plums", s "japanese plum"),
    (s "sour cherries", s "sour cherry"),
    (s "plumcots", s "plumcot"),
    (s "peacharines", s "peacharine"),
    (s "black sapotes", s "black sapote"),
    (s "white sapotes", s "white sapote"),
    (s "star apples", s "star apple"),
    (s "rose apples", s "rose apple"),
    (s "mountain apples", s "mountain apple"),
    (s "wax apples", s "wax apple"),
    (s "spanish cherries", s "spanish cherry"),
    (s "madagascar olives", s "madagascar olive"),
    (s "bourbon oranges", s "bourbon orange"),
    (s "mamey sapotes", s "mamey sapote"),
    (s "surinam cherries", s "surinam cherry"),
    (s "grumichamas", s "grumichama"),
    (s "jaboticabas", s "jaboticaba"),
    (s "monsteras", s "monstera"),
    (s "mulberries", s "mulberry"),
    (s "mock oranges", s "mock orange"),
    (s "granadillas", s "granadilla"),
    (s "cape gooseberries", s "cape gooseberry"),
    (s "abius", s "abiu"),
    (s "durians", s "durian"),
    (s "mangosteens", s "mangosteen"),
    (s "walnuts", s "walnut"),
    (s "aceroas", s "acerola"),
    (s "crab apples", s "crab apple"),
    (s "sapodillas", s "sapodilla"),
    (s "japanese persimmons", s "japanese persimmon"),
    (s "tropical almonds", s "tropical almond"),
    (s "chebulic myrobalans", s "chebulic myrobalan"),
    (s "cacaos", s "cacao"),
    (s "cashew apples", s "cashew apple"),
    (s "cherimoyas", s "cherimoya"),
    (s "pond apples", s "pond apple"),
    (s "soursops", s "soursop"),
    (s "akee apples", s "akee apple"),
    (s "babacos", s "babaco"),
    (s "natal plums", s "natal plum"),
    (s "hawthorns", s "hawthorn"),
    (s "excelsa coffees", s "excelsa coffee"),
    (s "liberian coffees", s "liberian coffee"),
    (s "robusta coffees", s "robusta coffee"),
    (s "lilly pillies", s "lilly pilly"),
    (s "jerusalem cherries", s "jerusalem cherry"),
    (s "jew plums", s "jew plum"),
    (s "jambus", s "jambu"),
    (s "prickly pears", s "prickly pear"),
    (s "almonds", s "almond"),
    (s "sweet cherries", s "sweet cherry"),
    (s "mombins", s "mombin")
]

set_option maxRecDepth 8000 in
/-- Constructing the Python dict literal of `_normalize_commodity_name`
entry by entry yields exactly the `plural_to_singular` table. -/
theorem plural_to_singular_eq_dictLit :
    dictLit plural_entries = plural_to_singular := by rfl

/-! ### `data/table_1.py`: the pest and disease name key -/

/-- Raw entry of the `pest_info` dict in `data/table_1.py`. -/
structure PestRaw where
  name : Str
  present_in : List Str
deriving DecidableEq

namespace table_1

/-- The `pest_info` dictionary of `data/table_1.py` (its literal has no
duplicate keys, so the list is the dict). -/
def pest_info : Dict PestRaw := [
  (s "BW", { name := s "Bacterial Wilt", present_in := [] }),
  (s "CB", { name := s "Chickpea Blight", present_in := [] }),
  (s "DW", { name := s "Declared Weeds",
             present_in := [s "QLD", s "NSW", s "VIC", s "WA", s "NT", s "SA"] }),
  (s "EHB", { name := s "European House Borer", present_in := [s "WA"] }),
  (s "FB", { name := s "Fire Blight", present_in := [] }),
  (s "GMP", { name := s "Genetically Modified Plants",
              present_in := [s "QLD", s "NSW", s "VIC", s "WA", s "NT", s "SA"] }),
  (s "GP", { name := s "Grape Phylloxera", present_in := [s "NSW", s "VIC"] }),
  (s "IYSV", { name := s "Iris Yellow Spot Virus", present_in := [] }),
  (s "LA", { name := s "Lupin Anthracnose", present_in := [s "WA", s "SA"] }),
  (s "MFF", { name := s "Mediterranean Fruit Fly", present_in := [s "WA"] }),
  (s "MR", { name := s "Myrtle Rust", present_in := [s "QLD", s "NSW", s "VIC"] }),
  (s "NS", { name := s "Nursery Stock", present_in := [] }),
  (s "OS", { name := s "Onion Smut", present_in := [s "SA"] }),
  (s "PCN", { name := s "Potato Cyst Nematode", present_in := [s "VIC"] }),
  (s "PW", { name := s "Pea Weevil", present_in := [] }),
  (s "QFF", { name := s "Queensland Fruit Fly",
              present_in := [s "QLD", s "NSW", s "VIC", s "NT"] }),
  (s "RIFA", { name := s "Red Imported Fire Ant", present_in := [s "QLD", s "NSW"] }),
  (s "RN", { name := s "Ryegrass Nematode", present_in := [] }),
  (s "SLW", { name := s "Silverleaf Whitefly", present_in := [s "QLD"] }),
  (s "TPP", { name := s "Tomato Potato Psyllid", present_in := [s "WA"] }),
  (s "TYLCV", { name := s "Tomato Yellow Leaf Curl Virus",
                present_in := [s "QLD", s "NT"] })
]

end table_1

/-! ### `tas_data.py`: data model and `CommodityDatabase` -/

/-- The `CommodityType` enum of `tas_data.py`. -/
inductive CommodityType where
  | fruit
  | plant
  | seed
  | grain
  | equipment
  | other
deriving DecidableEq

/-- The `PestInfo` dataclass of `tas_data.py`. -/
structure PestInfo where
  code : Str
  name : Str
  present_in : List Str
  is_fruit_fly : Bool := false
  is_phylloxera : Bool := false
  is_weed : Bool := false
  is_gm : Bool := false
deriving DecidableEq

/-- The `ICAInfo` dataclass of `tas_data.py`. -/
structure ICAInfo where
  number : Str
  title : Str
  status : Str
  applicable_irs : List Str
deriving DecidableEq

/-- The `IRInfo` dataclass of `tas_data.py`. -/
structure IRInfo where
  number : Str
  title : Str
  applicable_icas : List ICAInfo
  is_revoked : Bool := false
deriving DecidableEq

/-- The `PhylloxeraZoneInfo` dataclass of `tas_data.py`. -/
structure PhylloxeraZoneInfo where
  pez_requirements : Option Str := none
  prz_requirements : Option Str := none
  piz_requirements : Option Str := none
deriving DecidableEq

/-- The `CommodityInfo` dataclass of `tas_data.py`. Python fields defaulting
to `None` are modelled as `Option` fields defaulting to `none`; the `pests`
set is modelled as a duplicate-free list. -/
structure CommodityInfo where
  name : Str
  commodity_type : CommodityType
  botanical_name : Option Str := none
  ir_numbers : Option (List Str) := none
  pests : Option (List Str) := none
  is_fruit_fly_host : Bool := false
  qff_host : Bool := false
  mff_host : Bool := false
  restricted_entry : Bool := false
  phylloxera_info : Option PhylloxeraZoneInfo := none
  parent_commodity : Option Str := none
  alternative_names : Option (List Str) := none
deriving DecidableEq

/-- The state held by a `CommodityDatabase` instance: its four dictionaries. -/
structure CommodityDatabase where
  commodities : Dict CommodityInfo := []
  ir_info : Dict IRInfo := []
  ica_info : Dict ICAInfo := []
  pest_info : Dict PestInfo := []
deriving DecidableEq

/-- A row of a cleaned table: a Python dict of cleaned cells. -/
abbrev Row := Dict Str

/-- The value of `row.get(k, "")`. -/
def rowGetD (row : Row) (k : Str) : Str := (dget row k).getD []

namespace CommodityDatabase

/-- `CommodityDatabase._load_pest_info`: build the `pest_info` dictionary
from `table_1.pest_info`. -/
def _load_pest_info (db : CommodityDatabase) : CommodityDatabase :=
  table_1.pest_info.foldl (fun db p =>
    let code := p.1
    let is_fruit_fly := code == s "QFF" || code == s "MFF"
    let is_phylloxera := code == s "GP"
    let is_weed := code == s "DW"
    let is_gm := code == s "GMP"
    { db with pest_info := dinsert db.pest_info code {
          code := code, name := p.2.name, present_in := p.2.present_in,
          is_fruit_fly := is_fruit_fly, is_phylloxera := is_phylloxera,
          is_weed := is_weed, is_gm := is_gm } }) db

/-- `CommodityDatabase._process_fruit_fly_hosts`. -/
def _process_fruit_fly_hosts (db : CommodityDatabase) (rows : List Row) :
    CommodityDatabase :=
  rows.foldl (fun db row =>
    if !truthy (dget row (s "Botanical Name")) ||
       !truthy (dget row (s "Common Name")) then db
    else
      let name := strip (rowGetD row (s "Common Name"))
      let botanical := strip (rowGetD row (s "Botanical Name"))
      let is_qff := pyIn (s "QFF") (rowGetD row (s "QFF"))
      let is_mff := pyIn (s "MFF") (rowGetD row (s "MFF"))
      let restricted := pyIn (s "restricted entry") (lower botanical)
      let ct := if pyIn (s "seed") (lower name) ||
                   pyIn (s "seed") (lower botanical)
                then CommodityType.seed else CommodityType.fruit
      { db with commodities := dinsert db.commodities (lower name) {
            name := name, botanical_name := some botanical,
            commodity_type := ct, is_fruit_fly_host := true,
            qff_host := is_qff, mff_host := is_mff,
            restricted_entry := restricted } }) db

/-- `CommodityDatabase._process_phylloxera_hosts`. -/
def _process_phylloxera_hosts (db : CommodityDatabase) (rows : List Row) :
    CommodityDatabase :=
  rows.foldl (fun db row =>
    if !truthy (dget row (s "Host")) then db
    else
      let name := strip (rowGetD row (s "Host"))
      if dmem db.commodities (lower name) then
        { db with commodities := dmodify db.commodities (lower name) (fun r =>
            { r with phylloxera_info := some {
                  pez_requirements := dget row (s "PEZ Requirements"),
                  prz_requirements := dget row (s "PRZ Requirements"),
                  piz_requirements := dget row (s "PIZ Requirements") } }) }
      else db) db

/-- `CommodityDatabase._process_seeds_and_grains`. -/
def _process_seeds_and_grains (db : CommodityDatabase) (rows : List Row) :
    CommodityDatabase :=
  rows.foldl (fun db row =>
    if !truthy (dget row (s "Commodity")) then db
    else
      let name := strip (rowGetD row (s "Commodity"))
      let irs := if truthy (dget row (s "IR")) then
          ((rowGetD row (s "IR")).splitOn ',').map strip else []
      let pests := if truthy (dget row (s "Pests")) then
          (((rowGetD row (s "Pests")).splitOn ',').map strip).eraseDups else []
      let ct := if pyIn (s "seed") (lower name)
                then CommodityType.seed else CommodityType.grain
      if dmem db.commodities (lower name) then
        { db with commodities := dmodify db.commodities (lower name) (fun r =>
            { r with ir_numbers := some irs, pests := some pests,
                     commodity_type := ct }) }
      else
        { db with commodities := dinsert db.commodities (lower name) {
              name := name, commodity_type := ct,
              ir_numbers := some irs, pests := some pests } }) db

/-- `CommodityDatabase._process_other_restricted_matter`. -/
def _process_other_restricted_matter (db : CommodityDatabase)
    (rows : List Row) : CommodityDatabase :=
  rows.foldl (fun db row =>
    if !truthy (dget row (s "Commodity")) then db
    else
      let name := strip (rowGetD row (s "Commodity"))
      let irs := if truthy (dget row (s "IR")) then
          ((rowGetD row (s "IR")).splitOn ',').map strip else []
      let pests := if truthy (dget row (s "Pests")) then
          (((rowGetD row (s "Pests")).splitOn ',').map strip).eraseDups else []
      let ct := if pyIn (s "seed") (lower name) then CommodityType.seed
                else if pyIn (s "plant") (lower name) then
                  CommodityType.plant
                else CommodityType.equipment
      if dmem db.commodities (lower name) then
        { db with commodities := dmodify db.commodities (lower name) (fun r =>
            { r with ir_numbers := some irs, pests := some pests,
                     commodity_type := ct }) }
      else
        { db with commodities := dinsert db.commodities (lower name) {
              name := name, commodity_type := ct,
              ir_numbers := some irs, pests := some pests } }) db

/-- `CommodityDatabase._process_cross_index`. -/
def _process_cross_index (db : CommodityDatabase) (rows : List Row) :
    CommodityDatabase :=
  rows.foldl (fun db row =>
    if !truthy (dget row (s "IR Number")) then db
    else
      let ir_number := strip (rowGetD row (s "IR Number"))
      let ir_title := strip (rowGetD row (s "IR Title"))
      let ica_str := strip (rowGetD row (s "ICA Equivalent"))
      let db := { db with ir_info := dinsert db.ir_info ir_number {
            number := ir_number, title := ir_title, applicable_icas := [],
            is_revoked := pyIn (s "REVOKED") ir_title } }
      if !ica_str.isEmpty && pyIn (s "ICA-") ica_str then
        let parts := ica_str.splitOn ':'
        if 2 ≤ parts.length then
          let ica_number := strip (parts.getD 0 [])
          let ica_title := strip (parts.getD 1 [])
          let ica : ICAInfo := { number := ica_number, title := ica_title,
                                 status := s "Accepted",
                                 applicable_irs := [ir_number] }
          { db with
            ica_info := dinsert db.ica_info ica_number ica,
            ir_info := dmodify db.ir_info ir_number (fun ir =>
              { ir with applicable_icas := ir.applicable_icas ++ [ica] }) }
        else db
      else db) db

end CommodityDatabase

namespace CommodityDatabase

/-- `CommodityDatabase.get_pest_info`. -/
def get_pest_info (db : CommodityDatabase) (pest_code : Str) :
    Option PestInfo :=
  dget db.pest_info pest_code

/-- `CommodityDatabase.get_pests_by_state`. -/
def get_pests_by_state (db : CommodityDatabase) (state : Str) :
    List PestInfo :=
  (dvalues db.pest_info).filter (fun pest => pest.present_in.contains state)

/-- `CommodityDatabase.get_fruit_flies_by_state`. -/
def get_fruit_flies_by_state (db : CommodityDatabase) (state : Str) :
    List PestInfo :=
  (dvalues db.pest_info).filter (fun pest =>
    pest.is_fruit_fly && pest.present_in.contains state)

/-- `CommodityDatabase.get_phylloxera_by_state`. -/
def get_phylloxera_by_state (db : CommodityDatabase) (state : Str) :
    List PestInfo :=
  (dvalues db.pest_info).filter (fun pest =>
    pest.is_phylloxera && pest.present_in.contains state)

/-- `CommodityDatabase.get_weeds_by_state`. -/
def get_weeds_by_state (db : CommodityDatabase) (state : Str) :
    List PestInfo :=
  (dvalues db.pest_info).filter (fun pest =>
    pest.is_weed && pest.present_in.contains state)

/-- `CommodityDatabase.get_gm_by_state`. -/
def get_gm_by_state (db : CommodityDatabase) (state : Str) : List PestInfo :=
  (dvalues db.pest_info).filter (fun pest =>
    pest.is_gm && pest.present_in.contains state)

/-- `CommodityDatabase.lookup`: case-insensitive commodity lookup. -/
def lookup (db : CommodityDatabase) (query : Str) : Option CommodityInfo :=
  dget db.commodities (strip (lower query))

/-- `CommodityDatabase.search`: commodities whose key contains the query. -/
def search (db : CommodityDatabase) (query : Str) : List CommodityInfo :=
  (db.commodities.filter (fun p => pyIn (strip (lower query)) p.1)).map (·.2)

/-- `CommodityDatabase.get_ir_info`. -/
def get_ir_info (db : CommodityDatabase) (ir_number : Str) : Option IRInfo :=
  dget db.ir_info ir_number

/-- `CommodityDatabase.get_ica_info`. -/
def get_ica_info (db : CommodityDatabase) (ica_number : Str) :
    Option ICAInfo :=
  dget db.ica_info ica_number

/-! State-passing forms of the ten public read methods: a Python method call
takes the object state and returns its result together with the state the
call leaves behind. None of these method bodies assigns to `self`, so each
call leaves the state it received. -/

/-- Method call `db.get_pest_info(c)`. -/
def get_pest_info_call (db : CommodityDatabase) (c : Str) :
    Option PestInfo × CommodityDatabase := (get_pest_info db c, db)

/-- Method call `db.get_pests_by_state(st)`. -/
def get_pests_by_state_call (db : CommodityDatabase) (st : Str) :
    List PestInfo × CommodityDatabase := (get_pests_by_state db st, db)

/-- Method call `db.get_fruit_flies_by_state(st)`. -/
def get_fruit_flies_by_state_call (db : CommodityDatabase) (st : Str) :
    List PestInfo × CommodityDatabase := (get_fruit_flies_by_state db st, db)

/-- Method call `db.get_phylloxera_by_state(st)`. -/
def get_phylloxera_by_state_call (db : CommodityDatabase) (st : Str) :
    List PestInfo × CommodityDatabase := (get_phylloxera_by_state db st, db)

/-- Method call `db.get_weeds_by_state(st)`. -/
def get_weeds_by_state_call (db : CommodityDatabase) (st : Str) :
    List PestInfo × CommodityDatabase := (get_weeds_by_state db st, db)

/-- Method call `db.get_gm_by_state(st)`. -/
def get_gm_by_state_call (db : CommodityDatabase) (st : Str) :
    List PestInfo × CommodityDatabase := (get_gm_by_state db st, db)

/-- Method call `db.lookup(q)`. -/
def lookup_call (db : CommodityDatabase) (q : Str) :
    Option CommodityInfo × CommodityDatabase := (lookup db q, db)

/-- Method call `db.search(q)`. -/
def search_call (db : CommodityDatabase) (q : Str) :
    List CommodityInfo × CommodityDatabase := (search db q, db)

/-- Method call `db.get_ir_info(n)`. -/
def get_ir_info_call (db : CommodityDatabase) (n : Str) :
    Option IRInfo × CommodityDatabase := (get_ir_info db n, db)

/-- Method call `db.get_ica_info(n)`. -/
def get_ica_info_call (db : CommodityDatabase) (n : Str) :
    Option ICAInfo × CommodityDatabase := (get_ica_info db n, db)

end CommodityDatabase

/-! ### Loading the cleaned files (`_load_cleaned_data` / `_load_data`) -/

/-- The outcome of opening and JSON-parsing one cleaned file:
either the raised exception's message, or the parsed JSON object with its
optional `name` and `rows` fields (`data["name"]` / `data["rows"]` raise
`KeyError` when absent). -/
inductive CleanedFile where
  | unreadable (msg : Str)
  | parsed (name : Option Str) (rows : Option (List Row))

/-- Route one cleaned table to its processor by table name
(`_load_cleaned_data`, lines 124-134 of `tas_data.py`). -/
def routeTable (db : CommodityDatabase) (table_name : Str)
    (rows : List Row) : CommodityDatabase :=
  if pyIn (s "SCHEDULE-1A-FRUIT-FLY-HOST-FRUIT") table_name then
    CommodityDatabase._process_fruit_fly_hosts db rows
  else if pyIn (s "SCHEDULE-1-Hosts-of-Grape-Phylloxera") table_name then
    CommodityDatabase._process_phylloxera_hosts db rows
  else if pyIn (s "Table3-Index-of-IRs-for-Seeds-and-Grains") table_name then
    CommodityDatabase._process_seeds_and_grains db rows
  else if pyIn (s "Table4-Index-of-IRs-for-Other-Restricted-matter")
      table_name then
    CommodityDatabase._process_other_restricted_matter db rows
  else if pyIn (s "Cross-Index-of-Tasmanian-IRs-by-ICA-Equivalent")
      table_name then
    CommodityDatabase._process_cross_index db rows
  else db

/-- `CommodityDatabase._load_cleaned_data` on one file: open/parse failures
and missing keys surface as exceptions. -/
def _load_cleaned_data (db : CommodityDatabase) (f : CleanedFile) :
    Except Str CommodityDatabase :=
  match f with
  | .unreadable m => .error m
  | .parsed none _ => .error (s "KeyError: \x27name\x27")
  | .parsed (some _) none => .error (s "KeyError: \x27rows\x27")
  | .parsed (some nm) (some rows) => .ok (routeTable db nm rows)

/-- The line printed by `_load_data` when loading a file raises. -/
def loadErrLine (fileName msg : Str) : Str :=
  s "Error loading " ++ fileName ++ s ": " ++ msg

/-- `CommodityDatabase._load_data`: iterate over the cleaned files, loading
each inside `try/except`; a raised exception is printed and the loop
continues. Returns the final database and the printed lines in order. -/
def _load_data (db : CommodityDatabase) :
    List (Str × CleanedFile) → CommodityDatabase × List Str
  | [] => (db, [])
  | f :: rest =>
    match _load_cleaned_data db f.2 with
    | .ok db' => _load_data db' rest
    | .error e =>
      let r := _load_data db rest
      (r.1, loadErrLine f.1 e :: r.2)

/-! ### `tas_tools.py`: commodity-name normalization and fruit-fly tool -/

/-- `_normalize_commodity_name` of `tas_tools.py`: lowercase and strip the
name (`name = commodity_name.lower().strip()`), then return
`plural_to_singular[name]` when `name` is a key there, else `name`. -/
def _normalize_commodity_name (commodity_name : Str) : Str :=
  match dget plural_to_singular (strip (lower commodity_name)) with
  | some v => v
  | none => strip (lower commodity_name)

/-- Modelled from the spec: the class of `fruit_fly_db` is imported from
`tas_data` by `tas_tools.py` and `test_fruit_fly.py` but is not among the
sources (the `tas_data.py` present defines `commodity_db` instead); per the
spec it is a commodity dictionary populated once at startup. -/
structure FruitFlyDb where
  commodities : Dict CommodityInfo := []

/-- Modelled from the spec: `fruit_fly_db.get_commodity_info`, a dictionary
lookup ("query → dictionary lookup or vector search"). -/
def get_commodity_info (db : FruitFlyDb) (name : Str) :
    Option CommodityInfo :=
  dget db.commodities name

/-- Modelled from the spec: `fruit_fly_db.search_commodities`, a substring
search over the commodity dictionary as in `CommodityDatabase.search`. -/
def search_commodities (db : FruitFlyDb) (query : Str) :
    List CommodityInfo :=
  (db.commodities.filter (fun p => pyIn query p.1)).map (·.2)

/-- The risk-assessment record returned by
`fruit_fly_db.assess_fruit_fly_risk` (a Python dict with an `"error"` key
in the failure case, and `"qff_risk"`, `"mff_risk"`, `"risk_details"`
otherwise, as read by `tas_tools.py` and `test_fruit_fly.py`). -/
structure RiskAssessment where
  error : Option Str := none
  qff_risk : Bool := false
  mff_risk : Bool := false
  risk_details : List Str := []

/-- Presence of a pest in a state according to the `table_1.pest_info`
table. -/
def pest_present_in_state (code state : Str) : Bool :=
  match dget table_1.pest_info code with
  | none => false
  | some info => info.present_in.contains state

/-- The risk-assessment record with the given flags and the detail lines
they imply. -/
def mkAssessment (q m : Bool) (state : Str) : RiskAssessment :=
  { qff_risk := q, mff_risk := m,
    risk_details :=
      (if q then [s "Queensland Fruit Fly (QFF) is present in " ++ state]
       else []) ++
      (if m then [s "Mediterranean Fruit Fly (MFF) is present in " ++ state]
       else []) }

/-- Modelled from the spec: the core of `fruit_fly_db.assess_fruit_fly_risk`
on a commodity record — "a small set of dictionary lookups and boolean
combinations over hand-curated tables": there is a QFF (resp. MFF) risk
exactly when the commodity is a QFF (resp. MFF) host and that fruit fly is
present in the origin state per the pest table. -/
def assess_commodity (c : CommodityInfo) (state : Str) : RiskAssessment :=
  mkAssessment (c.qff_host && pest_present_in_state (s "QFF") state)
    (c.mff_host && pest_present_in_state (s "MFF") state) state

/-- Modelled from the spec: `fruit_fly_db.assess_fruit_fly_risk(name, state)`
looks the commodity up and applies the boolean risk combination; an unknown
commodity yields the error entry checked by `"error" in risk_assessment`. -/
def assess_fruit_fly_risk (db : FruitFlyDb) (commodity_name state : Str) :
    RiskAssessment :=
  match get_commodity_info db (lower (strip commodity_name)) with
  | none => { error := some (s "ERROR: Commodity \x27" ++ commodity_name ++
      s "\x27 not found in fruit fly host database.") }
  | some c => assess_commodity c state

/-- Lines 310-313 of `tas_tools.py`: the response header. -/
def headerBlock (name origin : Str) : List Str :=
  [s "**Commodity**: " ++ name,
   s "**Origin State**: " ++ origin,
   s "**Destination**: Tasmania",
   s ""]

/-- Lines 315-325 of `tas_tools.py`: the host-status section. -/
def hostStatusBlock (c : CommodityInfo) : List Str :=
  if c.is_fruit_fly_host then
    [s "**Fruit Fly Host Status**:"] ++
    (if c.qff_host then [s "• Queensland Fruit Fly (QFF) host: YES"]
     else []) ++
    (if c.mff_host then [s "• Mediterranean Fruit Fly (MFF) host: YES"]
     else []) ++
    [s ""]
  else
    [s "**Fruit Fly Host Status**: NOT a fruit fly host", s ""]

/-- Lines 337-340 of `tas_tools.py`: the ICA-1 conditions. -/
def ica1Block : List Str :=
  [s "• **ICA-1**: Queensland Fruit Fly Hosts",
   s "  - Must be treated with approved treatment",
   s "  - Must have valid phytosanitary certificate",
   s "  - Must be free from fruit fly"]

/-- Lines 342-345 of `tas_tools.py`: the ICA-2 conditions. -/
def ica2Block : List Str :=
  [s "• **ICA-2**: Mediterranean Fruit Fly Hosts",
   s "  - Must be treated with approved treatment",
   s "  - Must have valid phytosanitary certificate",
   s "  - Must be free from fruit fly"]

/-- Lines 327-368 of `tas_tools.py`: the risk section of the response. -/
def riskSection (c : CommodityInfo) (a : RiskAssessment) : List Str :=
  if a.qff_risk || a.mff_risk then
    [s "**⚠️ FRUIT FLY RISK DETECTED**:"] ++
    a.risk_details.map (fun detail => s "• " ++ detail) ++
    [s "", s "**Required ICA Conditions**:"] ++
    (if a.qff_risk then ica1Block else []) ++
    (if a.mff_risk then ica2Block else []) ++
    [s "",
     s "**Treatment Requirements**:",
     s "• Cold treatment: 1°C for 14 days",
     s "• Heat treatment: 47°C for 20 minutes",
     s "• Fumigation: Methyl bromide or phosphine",
     s "",
     s "**Documentation Required**:",
     s "• Phytosanitary certificate with treatment details",
     s "• Treatment certificate",
     s "• Notice of Intention (NOI) 24h before arrival",
     s ""]
  else
    [s "**✅ NO FRUIT FLY RISK**:",
     s "• No fruit fly hosts present in origin state",
     s "• No specific ICA conditions required for fruit fly",
     s ""] ++
    (if c.is_fruit_fly_host then
      [s "**Note**: While this commodity is a fruit fly host, the relevant fruit fly is not present in the origin state."]
     else []) ++
    [s ""]

/-- Lines 370-374 of `tas_tools.py`: the generic footer. -/
def footerBlock : List Str :=
  [s "⚠️  **Pre-entry Requirements**:",
   s "• Lodge a *Notice of Intention (NoI) to Import* with Biosecurity Tasmania at least **24 h before the consignment arrives**",
   s "• Attach required phytosanitary certificates",
   s "• Ensure all treatment requirements are met"]

/-- The `response_parts` list built by `fruit_fly_assessment`
(lines 308-374 of `tas_tools.py`). -/
def response_parts (c : CommodityInfo) (origin : Str) (a : RiskAssessment) :
    List Str :=
  headerBlock c.name origin ++ hostStatusBlock c ++ riskSection c a ++
    footerBlock

/-- Python `"\n".join(...)`. -/
def joinLines : List Str → Str
  | [] => []
  | [l] => l
  | l :: l2 :: rest => l ++ '\n' :: joinLines (l2 :: rest)

/-- Python `query.split(",", 1)` when `","` is in `query`: the part before
the first comma and the part after it. -/
def splitFirstComma (q : Str) : Str × Str :=
  (q.takeWhile (fun c => !(c == ',')),
   (q.dropWhile (fun c => !(c == ','))).drop 1)

/-- The error returned by `fruit_fly_assessment` when no origin state is
available (line 287 of `tas_tools.py`). -/
def originErrorMsg : Str :=
  s "ERROR: Origin state is required for fruit fly assessment. Please specify the state of origin."

/-- Lines 289-376 of `fruit_fly_assessment`: everything after the origin
check — normalize the commodity name, look it up (falling back to substring
search), assess the fruit-fly risk and format the response. -/
def ffa_after_origin (db : FruitFlyDb) (raw_name origin : Str) : Str :=
  let commodity_name := _normalize_commodity_name raw_name
  let found :=
    match get_commodity_info db commodity_name with
    | some c => some c
    | none => (search_commodities db commodity_name).head?
  match found with
  | none => s "ERROR: Commodity \x27" ++ commodity_name ++
      s "\x27 not found in fruit fly host database."
  | some c =>
    let a := assess_fruit_fly_risk db c.name origin
    match a.error with
    | some e => e
    | none => joinLines (response_parts c origin a)

/-- `fruit_fly_assessment` of `tas_tools.py` (lines 261-376): resolve the
origin state (handling the `"commodity, state"` query format), error out
when none is available, and otherwise run the assessment. -/
def fruit_fly_assessment (db : FruitFlyDb) (query : Str)
    (origin_state : Option Str) : Str :=
  let resolved : Str × Option Str :=
    if query.contains ',' && !truthy origin_state then
      let p := splitFirstComma query
      (strip p.1, some (strip p.2))
    else (query, origin_state)
  if !truthy resolved.2 then originErrorMsg
  else ffa_after_origin db resolved.1 (resolved.2.getD [])

/-! ### `utils/data_cleaner.py` -/

/-- Python `t.replace(pat, rep)` for a non-empty `pat`: replace all
non-overlapping occurrences, scanning left to right. The first argument is
fuel bounding the scan length. -/
def pyReplaceAux (pat rep : Str) : Nat → Str → Str
  | 0, t => t
  | _ + 1, [] => []
  | fuel + 1, c :: rest =>
    if leadsWith pat (c :: rest) && !pat.isEmpty then
      rep ++ pyReplaceAux pat rep fuel ((c :: rest).drop pat.length)
    else c :: pyReplaceAux pat rep fuel rest

/-- Python `t.replace(pat, rep)` (for the non-empty patterns used by
`clean_text`). -/
def pyReplace (t pat rep : Str) : Str := pyReplaceAux pat rep t.length t

/-- Dropping a while-prefix never lengthens a list. -/
theorem length_dropWhile_le {α : Type} (p : α → Bool) (l : List α) :
    (l.dropWhile p).length ≤ l.length := by
  induction l with
  | nil => simp
  | cons c t ih =>
    rw [List.dropWhile_cons]
    split
    · exact Nat.le_succ_of_le ih
    · exact Nat.le_refl _

/-- Collapse every maximal run of whitespace into one space
(`re.sub(r"\s+", " ", ...)`). -/
def collapseWs : Str → Str
  | [] => []
  | c :: rest =>
    if ws c then ' ' :: collapseWs (rest.dropWhile ws)
    else c :: collapseWs rest
termination_by t => t.length
decreasing_by
  · simp only [List.length_cons]
    exact Nat.lt_succ_of_le (length_dropWhile_le ws rest)
  · simp

/-- `clean_text` of `utils/data_cleaner.py`. In the source as stored, the
quote "normalizations" on line 22 replace a character by itself, and line 23
parses as a single `replace` whose pattern is the triple-quoted string
between the two `\x27\x27\x27` tokens; both are embedded as they behave. -/
def clean_text (text : Str) : Str :=
  if text.isEmpty then []
  else
    let t := collapseWs (strip text)
    let t := pyReplace (pyReplace t (s "\"") (s "\"")) (s "\"") (s "\"")
    let t := pyReplace t (s ", \"\x27\").replace(") (s "\x27")
    let t := pyReplace (pyReplace t (s "-") (s "-")) (s "—") (s "-")
    let t := pyReplace t (s "…") (s "...")
    t

/-- `extract_headers` of `utils/data_cleaner.py`. -/
def extract_headers (row : List Str) : List Str :=
  row.filterMap (fun h => if h.isEmpty then none else some (clean_text h))

/-- `clean_row` of `utils/data_cleaner.py`: a dict comprehension over the
indexed cells. -/
def clean_row (row : List Str) (headers : List Str) : Row :=
  dictLit (row.enum.filterMap (fun p =>
    if p.1 < headers.length && !p.2.isEmpty then
      some (headers.getD p.1 [], clean_text p.2)
    else none))

/-- One page of a raw JSON file, distilled to its `"rows"` field
(`none` when the key is absent). Cells that are JSON `null` behave exactly
like empty strings in every use `data_cleaner.py` makes of them, so a cell
is a `Str`. -/
abbrev RawPage := Option (List (List Str))

/-- The `CleanedTable` dataclass of `utils/data_cleaner.py` (its `metadata`
dict holds the source file name and the page count). -/
structure CleanedTable where
  name : Str
  headers : List Str
  rows : List Row
  source_file : Str
  page_count : Nat
deriving DecidableEq

/-- The header-row scan of `process_raw_json`: the first of the given rows
with a cell containing `"import requirement"`. -/
def findHeaderRow (rows : List (List Str)) : Option (List Str) :=
  rows.find? (fun row => row.any (fun cell =>
    !cell.isEmpty && pyIn (s "import requirement") (lower cell)))

/-- The per-page step of `process_raw_json`: update the headers found so far
and append this page's cleaned rows. -/
def processPage (acc : List Str × List Row) (page : RawPage) :
    List Str × List Row :=
  match page with
  | none => acc
  | some rows =>
    if rows.isEmpty then acc
    else
      let h1 := match findHeaderRow (rows.take 2) with
        | some row => extract_headers row
        | none => acc.1
      let headers := if h1.isEmpty then extract_headers (rows.headD [])
        else h1
      let newRows := rows.foldl (fun rs row =>
        if row.isEmpty || !row.any (fun c => !c.isEmpty) then rs
        else if headers.isEmpty then rs
        else
          let cleaned := clean_row row headers
          if cleaned.isEmpty then rs else rs ++ [cleaned]) acc.2
      (headers, newRows)

/-- The outcome of opening and JSON-parsing one raw file: the raised
exception's message, or the parsed list of pages. -/
inductive RawFile where
  | unreadable (msg : Str)
  | parsed (pages : List RawPage)

/-- `process_raw_json` of `utils/data_cleaner.py` on a raw file with the
given stem (file name without extension) and name; opening or JSON-parsing
the file can raise. -/
def process_raw_json (stem fname : Str) (f : RawFile) :
    Except Str CleanedTable :=
  match f with
  | .unreadable m => .error m
  | .parsed pages =>
    let acc := pages.foldl processPage ([], [])
    .ok { name := pyReplace stem (s "_raw") (s ""),
          headers := acc.1, rows := acc.2,
          source_file := fname, page_count := pages.length }

/-- `save_cleaned_data` of `utils/data_cleaner.py`: the written file, as its
name and contents. -/
def save_cleaned_data (t : CleanedTable) : Str × CleanedTable :=
  (t.name ++ s "_cleaned.json", t)

/-- The line printed by `clean_all_tables` when processing a file raises. -/
def cleanErrLine (fname msg : Str) : Str :=
  s "Error processing " ++ fname ++ s ": " ++ msg

/-- `clean_all_tables` of `utils/data_cleaner.py`: process each raw file
inside `try/except`; a raised exception is printed and the loop continues.
Input entries are (stem, file name, raw file); the result is the list of
files written and the printed error lines, in order. -/
def clean_all_tables :
    List (Str × Str × RawFile) → List (Str × CleanedTable) × List Str
  | [] => ([], [])
  | (stem, fname, f) :: rest =>
    match process_raw_json stem fname f with
    | .ok t =>
      let r := clean_all_tables rest
      (save_cleaned_data t :: r.1, r.2)
    | .error e =>
      let r := clean_all_tables rest
      (r.1, cleanErrLine fname e :: r.2)

/-! ### `tas_index.py`: retrieval configuration -/

/-- The configuration passed to `RecursiveCharacterTextSplitter` in
`tas_index.py` (lines 31-37). -/
structure TextSplitterConfig where
  chunk_size : Nat
  chunk_overlap : Nat
  separators : List Str
  is_separator_regex : Bool
deriving DecidableEq

/-- The `splitter` built in `tas_index.py`. -/
def splitter : TextSplitterConfig :=
  { chunk_size := 800,
    chunk_overlap := 200,
    separators := [s "\n\n", s "\n", s ".", s "!", s "?", s ",", s " ",
      s ""],
    is_separator_regex := false }

/-- The configuration passed to `vectorstore.as_retriever` in `tas_index.py`
(lines 86-93); `lambda_mult` is the exact rational 0.7. -/
structure RetrieverConfig where
  search_type : Str
  k : Nat
  fetch_k : Nat
  lambda_mult : Rat
deriving DecidableEq

/-- The `retriever_tas` built in `tas_index.py`. -/
def retriever_tas : RetrieverConfig :=
  { search_type := s "mmr", k := 5, fetch_k := 10,
    lambda_mult := (7 : Rat) / 10 }

/-! ### Definitions used to state the claims -/

/-- Line 329 of `tas_tools.py`: the risk-detected banner. -/
def riskDetectedLine : Str := s "**⚠️ FRUIT FLY RISK DETECTED**:"

/-- Line 337 of `tas_tools.py`: the ICA-1 conditions marker line. -/
def ica1Line : Str := s "• **ICA-1**: Queensland Fruit Fly Hosts"

/-- Line 342 of `tas_tools.py`: the ICA-2 conditions marker line. -/
def ica2Line : Str := s "• **ICA-2**: Mediterranean Fruit Fly Hosts"

/-- An origin state is supplied to `fruit_fly_assessment` when the
`origin_state` argument is a non-empty string, or — failing that — the query
contains a comma with non-whitespace text after it. -/
def originSupplied (query : Str) (origin_state : Option Str) : Bool :=
  truthy origin_state ||
    (query.contains ',' && !(strip (splitFirstComma query).2).isEmpty)

/-- The exception message (if any) that `_load_cleaned_data` raises on a
file; it depends only on the file. -/
def fileError : CleanedFile → Option Str
  | .unreadable m => some m
  | .parsed none _ => some (s "KeyError: \x27name\x27")
  | .parsed (some _) none => some (s "KeyError: \x27rows\x27")
  | .parsed (some _) (some _) => none

/-- The exception message (if any) that `process_raw_json` raises on a raw
file. -/
def rawFileError : RawFile → Option Str
  | .unreadable m => some m
  | .parsed _ => none

/-- The invariant maintained on `CommodityDatabase.commodities`: every entry
stores its record under the lowercased record name, keys are already
stripped, and the key list is duplicate-free. -/
def DBInv (db : CommodityDatabase) : Prop :=
  (∀ p ∈ db.commodities, lower p.2.name = p.1 ∧ strip p.1 = p.1) ∧
    (db.commodities.map Prod.fst).Nodup

/-! ### Character and string lemmas -/

/-- Characters with equal code points are equal. -/
theorem char_eq_of_toNat {a b : Char} (h : a.toNat = b.toNat) : a = b :=
  Char.eq_of_val_eq (UInt32.toNat.inj h)

/-- Character equality through code points. -/
theorem char_eq_iff_toNat (a b : Char) : a = b ↔ a.toNat = b.toNat :=
  ⟨fun h => h ▸ rfl, char_eq_of_toNat⟩

/-- The defining equation of `Char.toLower`. -/
theorem char_toLower_eq (c : Char) :
    c.toLower =
      if c.toNat ≥ 65 ∧ c.toNat ≤ 90 then Char.ofNat (c.toNat + 32)
      else c := rfl

/-- Code point of `Char.ofNat` below the surrogate range. -/
theorem toNat_ofNat_lt (n : Nat) (h : n < 55296) : (Char.ofNat n).toNat = n := by
  unfold Char.ofNat
  rw [dif_pos (Or.inl h)]
  rfl

/-- Code point of the lowercased character. -/
theorem toNat_toLower (c : Char) :
    c.toLower.toNat =
      if c.toNat ≥ 65 ∧ c.toNat ≤ 90 then c.toNat + 32 else c.toNat := by
  rw [char_toLower_eq]
  split
  · next h => exact toNat_ofNat_lt _ (by omega)
  · rfl

/-- Lowercasing is idempotent. -/
theorem toLower_toLower (c : Char) : c.toLower.toLower = c.toLower := by
  by_cases h : c.toNat ≥ 65 ∧ c.toNat ≤ 90
  · have h1 : c.toLower.toNat = c.toNat + 32 := by rw [toNat_toLower, if_pos h]
    rw [char_toLower_eq c.toLower, h1, if_neg (by omega)]
  · have h1 : c.toLower = c := by rw [char_toLower_eq, if_neg h]
    rw [h1, h1]

/-- Membership of the whitespace class through code points. -/
theorem isWhitespace_iff_toNat (c : Char) :
    c.isWhitespace = true ↔
      c.toNat = 32 ∨ c.toNat = 9 ∨ c.toNat = 13 ∨ c.toNat = 10 := by
  have h32 : (' ' : Char).toNat = 32 := rfl
  have h9 : ('\t' : Char).toNat = 9 := rfl
  have h13 : ('\x0d' : Char).toNat = 13 := rfl
  have h10 : ('\n' : Char).toNat = 10 := rfl
  unfold Char.isWhitespace
  simp only [Bool.or_eq_true, decide_eq_true_eq, char_eq_iff_toNat, h32, h9,
    h13, h10]
  tauto

/-- Lowercasing does not change whitespace-ness. -/
theorem isWhitespace_toLower (c : Char) :
    c.toLower.isWhitespace = c.isWhitespace := by
  by_cases h : c.toNat ≥ 65 ∧ c.toNat ≤ 90
  · have h1 : c.toLower.toNat = c.toNat + 32 := by rw [toNat_toLower, if_pos h]
    have h2 : ¬(c.toLower.isWhitespace = true) := by
      rw [isWhitespace_iff_toNat]; omega
    have h3 : ¬(c.isWhitespace = true) := by
      rw [isWhitespace_iff_toNat]; omega
    simp only [Bool.not_eq_true] at h2 h3
    rw [h2, h3]
  · have h1 : c.toLower = c := by rw [char_toLower_eq, if_neg h]
    rw [h1]

/-- `ws` is invariant under lowercasing. -/
theorem ws_toLower (c : Char) : ws c.toLower = ws c := isWhitespace_toLower c

/-- Lowercasing a string is idempotent. -/
theorem lower_lower (t : Str) : lower (lower t) = lower t := by
  unfold lower
  rw [List.map_map]
  exact List.map_congr_left (fun c _ => toLower_toLower c)

/-- Lowercasing commutes with dropping leading whitespace. -/
theorem dropWhile_ws_map_toLower (t : Str) :
    (t.map Char.toLower).dropWhile ws = (t.dropWhile ws).map Char.toLower := by
  induction t with
  | nil => rfl
  | cons c r ih =>
    rw [List.map_cons, List.dropWhile_cons, List.dropWhile_cons, ws_toLower]
    by_cases h : ws c
    · rw [if_pos h, if_pos h, ih]
    · rw [if_neg h, if_neg h, List.map_cons]

/-- Lowercasing commutes with stripping. -/
theorem strip_lower (t : Str) : strip (lower t) = lower (strip t) := by
  unfold strip lower
  simp only [dropWhile_ws_map_toLower, ← List.map_reverse]

/-- Dropping a while-prefix twice is dropping it once. -/
theorem dropWhile_dropWhile {α : Type} (p : α → Bool) (t : List α) :
    (t.dropWhile p).dropWhile p = t.dropWhile p := by
  induction t with
  | nil => rfl
  | cons c r ih =>
    rw [List.dropWhile_cons]
    split
    · exact ih
    · rw [List.dropWhile_cons, if_neg ‹_›]

/-- `dropWhile` leaves a suffix of its input. -/
theorem dropWhile_suffix_exists {α : Type} (p : α → Bool) (t : List α) :
    ∃ u, u ++ t.dropWhile p = t := by
  induction t with
  | nil => exact ⟨[], rfl⟩
  | cons a r ih =>
    rw [List.dropWhile_cons]
    split
    · obtain ⟨u, hu⟩ := ih
      exact ⟨a :: u, by rw [List.cons_append, hu]⟩
    · exact ⟨[], rfl⟩

/-- The head surviving `dropWhile` fails the predicate. -/
theorem head_dropWhile_false {α : Type} (p : α → Bool) (t : List α) :
    ∀ {c : α} {r : List α}, t.dropWhile p = c :: r → p c = false := by
  induction t with
  | nil => intro c r h; cases h
  | cons a u ih =>
    intro c r h
    rw [List.dropWhile_cons] at h
    split at h
    · exact ih h
    · cases h
      exact Bool.eq_false_iff.mpr ‹¬_›

/-- Dropping a while-prefix past an all-satisfying block. -/
theorem dropWhile_append_of_all {α : Type} (p : α → Bool) (u t : List α)
    (h : ∀ c ∈ u, p c = true) : (u ++ t).dropWhile p = t.dropWhile p := by
  induction u with
  | nil => rfl
  | cons a r ih =>
    rw [List.cons_append, List.dropWhile_cons,
      if_pos (h a (List.mem_cons_self a r))]
    exact ih (fun c hc => h c (List.mem_cons_of_mem a hc))

/-- When something survives on the left, `dropWhile` does not reach the
appended part. -/
theorem dropWhile_append_of_ne_nil {α : Type} (p : α → Bool) (t v : List α)
    (h : t.dropWhile p ≠ []) :
    (t ++ v).dropWhile p = t.dropWhile p ++ v := by
  induction t with
  | nil => exact absurd rfl h
  | cons a r ih =>
    rw [List.cons_append, List.dropWhile_cons, List.dropWhile_cons]
    split
    · next hp =>
      rw [List.dropWhile_cons, if_pos hp] at h
      exact ih h
    · rfl

/-- A stripped string has no leading whitespace. -/
theorem dropWhile_ws_strip (t : Str) : (strip t).dropWhile ws = strip t := by
  unfold strip
  set A := t.dropWhile ws with hA
  set B := A.reverse.dropWhile ws with hB
  cases hBr : B.reverse with
  | nil => rfl
  | cons c r =>
    obtain ⟨u, hu⟩ := dropWhile_suffix_exists ws A.reverse
    have hA2 : A = B.reverse ++ u.reverse := by
      rw [← List.reverse_append, hB, hu, List.reverse_reverse]
    have hc : ws c = false := by
      apply head_dropWhile_false ws t (c := c) (r := r ++ u.reverse)
      rw [← hA, hA2, hBr, List.cons_append]
    rw [List.dropWhile_cons, if_neg (by simp [hc])]

/-- Stripping is idempotent. -/
theorem strip_strip (t : Str) : strip (strip t) = strip t := by
  conv_lhs => rw [strip]
  rw [dropWhile_ws_strip]
  conv_lhs => rw [strip]
  rw [List.reverse_reverse, dropWhile_dropWhile, ← strip]

/-- Stripping ignores an all-whitespace block on the left. -/
theorem strip_append_ws_left (u t : Str) (h : ∀ c ∈ u, ws c = true) :
    strip (u ++ t) = strip t := by
  unfold strip
  rw [dropWhile_append_of_all ws u t h]

/-- Stripping ignores an all-whitespace block on the right. -/
theorem strip_append_ws_right (t v : Str) (h : ∀ c ∈ v, ws c = true) :
    strip (t ++ v) = strip t := by
  by_cases h0 : t.dropWhile ws = []
  · have ht : ∀ c ∈ t, ws c = true := List.dropWhile_eq_nil_iff.1 h0
    unfold strip
    rw [dropWhile_append_of_all ws t v ht, h0,
      List.dropWhile_eq_nil_iff.2 h, List.reverse_nil]
  · unfold strip
    rw [dropWhile_append_of_ne_nil ws t v h0, List.reverse_append,
      dropWhile_append_of_all ws v.reverse _ (fun c hc =>
        h c (List.mem_reverse.1 hc))]

/-- The strip-of-lower normal form is a fixed point of strip-of-lower. -/
theorem strip_lower_fixed (x : Str) :
    strip (lower (strip (lower x))) = strip (lower x) := by
  have h1 : lower (strip (lower x)) = strip (lower x) := by
    rw [← strip_lower, lower_lower]
  rw [h1, strip_strip]

/-! ### Dictionary lemmas -/

/-- A successful lookup yields an entry of the dictionary. -/
theorem dget_some_mem {V : Type} {d : Dict V} {k : Str} {v : V}
    (h : dget d k = some v) : (k, v) ∈ d := by
  unfold dget at h
  cases hf : d.find? (fun p => p.1 == k) with
  | none => rw [hf] at h; cases h
  | some q =>
    rw [hf] at h
    have hq : q.1 = k := by simpa using List.find?_some hf
    have hv : q.2 = v := by simpa using h
    have : q ∈ d := List.mem_of_find?_eq_some hf
    rwa [← hq, ← hv]

/-- Lookup misses exactly the absent keys. -/
theorem dget_eq_none_of_not_dmem {V : Type} {d : Dict V} {k : Str}
    (h : dmem d k = false) : dget d k = none := by
  unfold dget
  have h2 : ∀ p ∈ d, ¬((fun p : Str × V => p.1 == k) p = true) := by
    intro p hp
    unfold dmem at h
    rw [List.any_eq_false] at h
    exact h p hp
  rw [List.find?_eq_none.2 h2]
  rfl

/-- With duplicate-free keys, lookup finds each stored entry. -/
theorem dget_of_mem_nodup {V : Type} {d : Dict V} {k : Str} {v : V}
    (hmem : (k, v) ∈ d) (hnd : (d.map Prod.fst).Nodup) : dget d k = some v := by
  induction d with
  | nil => cases hmem
  | cons q rest ih =>
    rw [List.map_cons, List.nodup_cons] at hnd
    by_cases hqk : q.1 = k
    · have hqv : q = (k, v) := by
        rcases List.mem_cons.1 hmem with h | h
        · exact h.symm
        · exact absurd (hqk ▸ List.mem_map_of_mem Prod.fst h) hnd.1
      unfold dget
      rw [List.find?_cons_of_pos _ (by simp [hqk]), hqv]
      rfl
    · have hmem2 : (k, v) ∈ rest := by
        rcases List.mem_cons.1 hmem with h | h
        · exact absurd (by rw [← h]) hqk
        · exact h
      unfold dget
      rw [List.find?_cons_of_neg _ (by simp [hqk])]
      exact ih hmem2 hnd.2

/-- Entries after insertion: an old entry or the inserted one. -/
theorem mem_dinsert {V : Type} {d : Dict V} {k : Str} {v : V} :
    ∀ p ∈ dinsert d k v, p ∈ d ∨ p = (k, v) := by
  intro p hp
  unfold dinsert at hp
  split at hp
  · obtain ⟨q, hq, hpq⟩ := List.mem_map.1 hp
    by_cases h : q.1 == k
    · right; rw [← hpq]; simp [h]
    · left; rw [← hpq]; simp only [h]; simpa using hq
  · rcases List.mem_append.1 hp with h | h
    · exact Or.inl h
    · right; simpa using h

/-- Insertion keeps the key list duplicate-free. -/
theorem dinsert_keys_nodup {V : Type} {d : Dict V} {k : Str} {v : V}
    (h : (d.map Prod.fst).Nodup) :
    ((dinsert d k v).map Prod.fst).Nodup := by
  unfold dinsert
  split
  · rw [List.map_map]
    have he : ∀ q ∈ d,
        (Prod.fst ∘ fun p => if p.1 == k then (k, v) else p) q = q.1 := by
      intro q _
      by_cases hq : q.1 == k
      · simp only [Function.comp, hq, if_pos rfl]
        exact (eq_of_beq hq).symm
      · simp [Function.comp, hq]
    rw [List.map_congr_left he]
    exact h
  · next hmem =>
    rw [List.map_append]
    rw [List.nodup_append]
    refine ⟨h, List.nodup_singleton k, ?_⟩
    intro a ha hb
    have : a = k := by simpa using hb
    subst this
    unfold dmem at hmem
    rw [Bool.not_eq_true, List.any_eq_false] at hmem
    obtain ⟨q, hq, hqa⟩ := List.mem_map.1 ha
    exact hmem q hq (by simp [hqa])

/-- In-place modification keeps the key list. -/
theorem dmodify_keys {V : Type} (d : Dict V) (k : Str) (f : V → V) :
    (dmodify d k f).map Prod.fst = d.map Prod.fst := by
  unfold dmodify
  rw [List.map_map]
  exact List.map_congr_left (fun q _ => by
    by_cases hq : q.1 == k <;> simp [Function.comp, hq])

/-- Entries after in-place modification keep their keys, with values either
kept or passed through `f`. -/
theorem mem_dmodify {V : Type} {d : Dict V} {k : Str} {f : V → V} :
    ∀ p ∈ dmodify d k f, ∃ q ∈ d, p.1 = q.1 ∧ (p.2 = q.2 ∨ p.2 = f q.2) := by
  intro p hp
  unfold dmodify at hp
  obtain ⟨q, hq, hpq⟩ := List.mem_map.1 hp
  by_cases h : q.1 == k
  · exact ⟨q, hq, by rw [← hpq]; simp [h]⟩
  · exact ⟨q, hq, by rw [← hpq]; simp [h]⟩

/-! ### Claim theorems -/

/-- C10: the retrieval pipeline configuration supplied by `tas_index.py`
uses chunk size 800, chunk overlap 200, and a retriever returning k = 5
documents after fetching 10 candidates for MMR selection. -/
theorem claim10_retrieval_config :
    splitter.chunk_size = 800 ∧ splitter.chunk_overlap = 200 ∧
    retriever_tas.k = 5 ∧ retriever_tas.fetch_k = 10 :=
  ⟨rfl, rfl, rfl, rfl⟩

/-- C2: none of the ten public read operations of `CommodityDatabase`
mutates the database: each call returns the state it received, so the four
dictionaries before and after any query are identical. -/
theorem claim2_reads_do_not_mutate (db : CommodityDatabase) (q : Str) :
    (CommodityDatabase.lookup_call db q).2 = db ∧
    (CommodityDatabase.search_call db q).2 = db ∧
    (CommodityDatabase.get_pest_info_call db q).2 = db ∧
    (CommodityDatabase.get_pests_by_state_call db q).2 = db ∧
    (CommodityDatabase.get_fruit_flies_by_state_call db q).2 = db ∧
    (CommodityDatabase.get_phylloxera_by_state_call db q).2 = db ∧
    (CommodityDatabase.get_weeds_by_state_call db q).2 = db ∧
    (CommodityDatabase.get_gm_by_state_call db q).2 = db ∧
    (CommodityDatabase.get_ir_info_call db q).2 = db ∧
    (CommodityDatabase.get_ica_info_call db q).2 = db :=
  ⟨rfl, rfl, rfl, rfl, rfl, rfl, rfl, rfl, rfl, rfl⟩

set_option maxRecDepth 8000 in
/-- C7: the hand-curated tables are small: the pest table has fewer than 200
entries, and the `plural_to_singular` dict — whose literal's duplicate keys
Python dict construction collapses — has fewer than 200 distinct keys. -/
theorem claim7_tables_small :
    plural_to_singular.length < 200 ∧ table_1.pest_info.length < 200 := by
  constructor
  · decide
  · decide

/-- C3: `CommodityDatabase.lookup q` returns exactly the record stored under
the key `q.lower().strip()` (and `None` when that key is absent), hence is
insensitive to letter case and surrounding whitespace in the query. -/
theorem claim3_lookup_normalized (db : CommodityDatabase) (q u v : Str)
    (hu : u.all ws = true) (hv : v.all ws = true) :
    CommodityDatabase.lookup db q = dget db.commodities (strip (lower q)) ∧
    (dmem db.commodities (strip (lower q)) = false →
      CommodityDatabase.lookup db q = none) ∧
    CommodityDatabase.lookup db (lower q) = CommodityDatabase.lookup db q ∧
    CommodityDatabase.lookup db (u ++ q ++ v) =
      CommodityDatabase.lookup db q := by
  refine ⟨rfl, fun h => dget_eq_none_of_not_dmem h, ?_, ?_⟩
  · unfold CommodityDatabase.lookup
    rw [lower_lower]
  · unfold CommodityDatabase.lookup
    have hu2 : ∀ c ∈ u.map Char.toLower, ws c = true := by
      intro c hc
      obtain ⟨c0, hc0, rfl⟩ := List.mem_map.1 hc
      rw [ws_toLower]
      exact List.all_eq_true.1 hu c0 hc0
    have hv2 : ∀ c ∈ v.map Char.toLower, ws c = true := by
      intro c hc
      obtain ⟨c0, hc0, rfl⟩ := List.mem_map.1 hc
      rw [ws_toLower]
      exact List.all_eq_true.1 hv c0 hc0
    have he : lower (u ++ q ++ v) =
        (u.map Char.toLower ++ q.map Char.toLower) ++ v.map Char.toLower := by
      unfold lower
      rw [List.map_append, List.map_append]
    rw [he, strip_append_ws_right _ _ hv2, strip_append_ws_left _ _ hu2]
    rfl

/-- Witness for C3 at a concrete database and query. -/
theorem claim3_lookup_normalized_witness :
    CommodityDatabase.lookup {} (s " APple ") =
      CommodityDatabase.lookup {} (s "apple") := by
  have h1 := (claim3_lookup_normalized {} (s " APple ") (s "") (s "")
    (by decide) (by decide)).2.2.1
  have hl : lower (s " APple ") = s " apple " := by decide
  rw [hl] at h1
  have h2 := (claim3_lookup_normalized {} (s "apple") (s " ") (s " ")
    (by decide) (by decide)).2.2.2
  have ha : s " " ++ s "apple" ++ s " " = s " apple " := by decide
  rw [ha] at h2
  rw [← h1]
  exact h2

/-- C5: `_normalize_commodity_name` maps its lowercased stripped input
through `plural_to_singular` when that is a key there, and otherwise
returns the lowercased stripped input unchanged. -/
theorem claim5_normalize (x : Str) :
    (∀ v, dget plural_to_singular (strip (lower x)) = some v →
      _normalize_commodity_name x = v) ∧
    (dget plural_to_singular (strip (lower x)) = none →
      _normalize_commodity_name x = strip (lower x)) := by
  constructor
  · intro v hv
    unfold _normalize_commodity_name
    split
    · next u hu =>
      rw [hv] at hu
      exact (Option.some.inj hu).symm
    · next hu =>
      rw [hv] at hu
      cases hu
  · intro hn
    unfold _normalize_commodity_name
    split
    · next u hu =>
      rw [hn] at hu
      cases hu
    · next hu => rfl

set_option maxRecDepth 8000 in
/-- Witness for C5: a plural key maps through the table to its singular. -/
theorem claim5_normalize_witness :
    _normalize_commodity_name (s " Apples ") = s "apple" := by
  exact (claim5_normalize (s " Apples ")).1 (s "apple") (by rfl)

set_option maxRecDepth 8000 in
/-- Every value of `plural_to_singular` is already lowercased and stripped,
and no value is itself a key of the table. -/
theorem p2s_values_normal :
    plural_to_singular.all
      (fun p => (strip (lower p.2) == p.2) &&
        !(dmem plural_to_singular p.2)) = true := by decide

/-- The defining case split of `_normalize_commodity_name`. -/
theorem normalize_spec (x : Str) :
    _normalize_commodity_name x =
      match dget plural_to_singular (strip (lower x)) with
      | some v => v
      | none => strip (lower x) := rfl

/-- C9: `_normalize_commodity_name` is idempotent — every output is already
lowercased and stripped, and no value of `plural_to_singular` is itself a
key of that table. -/
theorem claim9_normalize_idempotent (x : Str) :
    _normalize_commodity_name (_normalize_commodity_name x) =
      _normalize_commodity_name x := by
  rw [normalize_spec x]
  cases hv : dget plural_to_singular (strip (lower x)) with
  | some v =>
    have hmem := dget_some_mem hv
    have hall := List.all_eq_true.1 p2s_values_normal _ hmem
    rw [Bool.and_eq_true] at hall
    have h1 : strip (lower v) = v := eq_of_beq hall.1
    have h2 : dmem plural_to_singular v = false := by
      simpa using hall.2
    rw [normalize_spec v, h1, dget_eq_none_of_not_dmem h2]
  | none =>
    rw [normalize_spec (strip (lower x)), strip_lower_fixed x, hv]

/-! ### Invariant preservation for `CommodityDatabase` loading -/

/-- A fold preserves any invariant its step preserves. -/
theorem foldl_inv {α β : Type} (P : α → Prop) (f : α → β → α)
    (hf : ∀ a b, P a → P (f a b)) :
    ∀ (l : List β) (a : α), P a → P (l.foldl f a) := by
  intro l
  induction l with
  | nil => exact fun a h => h
  | cons b r ih => exact fun a h => ih _ (hf a b h)

/-- Inserting a record under the lowercase of its own stripped name
preserves the database invariant. -/
theorem DBInv_insert (db : CommodityDatabase) (r : CommodityInfo)
    (k raw : Str) (hk : k = lower r.name) (hr : r.name = strip raw)
    (h : DBInv db) :
    DBInv { db with commodities := dinsert db.commodities k r } := by
  subst hk
  constructor
  · intro p hp
    rcases mem_dinsert p hp with hmem | hnew
    · exact h.1 p hmem
    · rw [hnew]
      refine ⟨rfl, ?_⟩
      rw [hr, strip_lower, strip_strip]
  · exact dinsert_keys_nodup h.2

/-- A name-preserving in-place record update preserves the database
invariant. -/
theorem DBInv_modify (db : CommodityDatabase) (k : Str)
    (f : CommodityInfo → CommodityInfo) (hf : ∀ r, (f r).name = r.name)
    (h : DBInv db) :
    DBInv { db with commodities := dmodify db.commodities k f } := by
  constructor
  · intro p hp
    obtain ⟨q, hq, h1, h2⟩ := mem_dmodify p hp
    obtain ⟨hq1, hq2⟩ := h.1 q hq
    rcases h2 with h2 | h2
    · exact ⟨by rw [h2, h1, hq1], by rw [h1, hq2]⟩
    · exact ⟨by rw [h2, h1, hf, hq1], by rw [h1, hq2]⟩
  · show ((dmodify db.commodities k f).map Prod.fst).Nodup
    rw [dmodify_keys]
    exact h.2

/-- Changing only the non-commodity dictionaries preserves the invariant. -/
theorem DBInv_other (db db2 : CommodityDatabase)
    (hc : db2.commodities = db.commodities) (h : DBInv db) : DBInv db2 := by
  constructor
  · intro p hp
    exact h.1 p (by rwa [hc] at hp)
  · rw [hc]
    exact h.2

/-- `_process_fruit_fly_hosts` preserves the database invariant. -/
theorem fruit_fly_hosts_inv (db : CommodityDatabase) (rows : List Row)
    (h : DBInv db) :
    DBInv (CommodityDatabase._process_fruit_fly_hosts db rows) := by
  unfold CommodityDatabase._process_fruit_fly_hosts
  refine foldl_inv DBInv _ ?_ rows db h
  intro db2 row h2
  dsimp only
  split
  · exact h2
  · refine DBInv_insert db2 _ _ (rowGetD row (s "Common Name")) ?_ ?_ h2
    · rfl
    · rfl

/-- `_process_phylloxera_hosts` preserves the database invariant. -/
theorem phylloxera_hosts_inv (db : CommodityDatabase) (rows : List Row)
    (h : DBInv db) :
    DBInv (CommodityDatabase._process_phylloxera_hosts db rows) := by
  unfold CommodityDatabase._process_phylloxera_hosts
  refine foldl_inv DBInv _ ?_ rows db h
  intro db2 row h2
  dsimp only
  split
  · exact h2
  · split
    · exact DBInv_modify db2 _ _ (fun r => rfl) h2
    · exact h2

/-- `_process_seeds_and_grains` preserves the database invariant. -/
theorem seeds_and_grains_inv (db : CommodityDatabase) (rows : List Row)
    (h : DBInv db) :
    DBInv (CommodityDatabase._process_seeds_and_grains db rows) := by
  unfold CommodityDatabase._process_seeds_and_grains
  refine foldl_inv DBInv _ ?_ rows db h
  intro db2 row h2
  dsimp only
  split
  · exact h2
  · split
    · exact DBInv_modify db2 _ _ (fun r => rfl) h2
    · refine DBInv_insert db2 _ _ (rowGetD row (s "Commodity")) ?_ ?_ h2
      · rfl
      · rfl

/-- `_process_other_restricted_matter` preserves the database invariant. -/
theorem other_restricted_inv (db : CommodityDatabase) (rows : List Row)
    (h : DBInv db) :
    DBInv (CommodityDatabase._process_other_restricted_matter db rows) := by
  unfold CommodityDatabase._process_other_restricted_matter
  refine foldl_inv DBInv _ ?_ rows db h
  intro db2 row h2
  dsimp only
  split
  · exact h2
  · split
    · exact DBInv_modify db2 _ _ (fun r => rfl) h2
    · refine DBInv_insert db2 _ _ (rowGetD row (s "Commodity")) ?_ ?_ h2
      · rfl
      · rfl

/-- `_process_cross_index` preserves the database invariant. -/
theorem cross_index_inv (db : CommodityDatabase) (rows : List Row)
    (h : DBInv db) :
    DBInv (CommodityDatabase._process_cross_index db rows) := by
  unfold CommodityDatabase._process_cross_index
  refine foldl_inv DBInv _ ?_ rows db h
  intro db2 row h2
  dsimp only
  split
  · exact h2
  · split
    · split
      · exact DBInv_other _ _ rfl h2
      · exact DBInv_other _ _ rfl h2
    · exact DBInv_other _ _ rfl h2

/-- `_load_pest_info` preserves the database invariant. -/
theorem load_pest_info_inv (db : CommodityDatabase) (h : DBInv db) :
    DBInv (CommodityDatabase._load_pest_info db) := by
  unfold CommodityDatabase._load_pest_info
  refine foldl_inv DBInv _ ?_ table_1.pest_info db h
  intro db2 p h2
  exact DBInv_other _ _ rfl h2

/-- `routeTable` preserves the database invariant. -/
theorem routeTable_inv (db : CommodityDatabase) (nm : Str) (rows : List Row)
    (h : DBInv db) : DBInv (routeTable db nm rows) := by
  unfold routeTable
  split
  · exact fruit_fly_hosts_inv db rows h
  · split
    · exact phylloxera_hosts_inv db rows h
    · split
      · exact seeds_and_grains_inv db rows h
      · split
        · exact other_restricted_inv db rows h
        · split
          · exact cross_index_inv db rows h
          · exact h

/-- `_load_data` preserves the database invariant. -/
theorem load_data_inv (db : CommodityDatabase)
    (files : List (Str × CleanedFile)) (h : DBInv db) :
    DBInv (_load_data db files).1 := by
  induction files generalizing db with
  | nil => exact h
  | cons f rest ih =>
    unfold _load_data
    cases hf : _load_cleaned_data db f.2 with
    | ok db2 =>
      refine ih db2 ?_
      cases f2 : f.2 with
      | unreadable m => rw [f2] at hf; cases hf
      | parsed nm rows =>
        cases nm with
        | none => rw [f2] at hf; cases hf
        | some nm0 =>
          cases rows with
          | none => rw [f2] at hf; cases hf
          | some rows0 =>
            rw [f2] at hf
            have : routeTable db nm0 rows0 = db2 := by
              simpa [_load_cleaned_data] using hf
            rw [← this]
            exact routeTable_inv db nm0 rows0 h
    | error e => exact ih db h

/-- Under the invariant, looking a stored record up by its own name finds
exactly that record. -/
theorem DBInv_lookup_finds (db : CommodityDatabase) (h : DBInv db) :
    ∀ p ∈ db.commodities,
      CommodityDatabase.lookup db p.2.name = some p.2 := by
  intro p hp
  obtain ⟨h1, h2⟩ := h.1 p hp
  unfold CommodityDatabase.lookup
  rw [show lower p.2.name = p.1 from h1, h2]
  exact dget_of_mem_nodup (by simpa using hp) h.2

/-- C8: every data-loading step of `CommodityDatabase` preserves the
invariant that each commodity is stored under the lowercased (stripped)
record name; hence keys are duplicate-free and looking a stored record up
by its own name finds that record. -/
theorem claim8_commodity_key_invariant :
    (∀ db rows, DBInv db →
      DBInv (CommodityDatabase._process_fruit_fly_hosts db rows)) ∧
    (∀ db rows, DBInv db →
      DBInv (CommodityDatabase._process_phylloxera_hosts db rows)) ∧
    (∀ db rows, DBInv db →
      DBInv (CommodityDatabase._process_seeds_and_grains db rows)) ∧
    (∀ db rows, DBInv db →
      DBInv (CommodityDatabase._process_other_restricted_matter db rows)) ∧
    (∀ db rows, DBInv db →
      DBInv (CommodityDatabase._process_cross_index db rows)) ∧
    (∀ db, DBInv db → DBInv (CommodityDatabase._load_pest_info db)) ∧
    (∀ db files, DBInv db → DBInv (_load_data db files).1) ∧
    DBInv {} ∧
    (∀ db, DBInv db →
      (∀ p ∈ db.commodities, lower p.2.name = p.1) ∧
      (db.commodities.map Prod.fst).Nodup ∧
      (∀ p ∈ db.commodities,
        CommodityDatabase.lookup db p.2.name = some p.2)) := by
  refine ⟨fruit_fly_hosts_inv, phylloxera_hosts_inv, seeds_and_grains_inv,
    other_restricted_inv, cross_index_inv, load_pest_info_inv,
    load_data_inv, ?_, ?_⟩
  · constructor
    · intro p hp
      cases hp
    · exact List.nodup_nil
  · intro db h
    exact ⟨fun p hp => (h.1 p hp).1, h.2, DBInv_lookup_finds db h⟩

/-- Witness for C8: processing a concrete fruit-fly host row from the empty
database establishes the invariant, and the stored record is found by its
own name. -/
theorem claim8_commodity_key_invariant_witness :
    DBInv (CommodityDatabase._process_fruit_fly_hosts {}
      [[(s "Common Name", s " Apple "), (s "Botanical Name", s "Malus")]]) := by
  refine claim8_commodity_key_invariant.1 {}
    [[(s "Common Name", s " Apple "), (s "Botanical Name", s "Malus")]] ?_
  exact ⟨fun p hp => absurd hp (List.not_mem_nil p), List.nodup_nil⟩

/-! ### Error propagation in the loaders -/

/-- `fileError` names exactly the exception `_load_cleaned_data` raises,
independently of the database state. -/
theorem load_cleaned_data_error (db : CommodityDatabase) (f : CleanedFile)
    (e : Str) (h : fileError f = some e) :
    _load_cleaned_data db f = .error e := by
  cases f with
  | unreadable m =>
    cases h
    rfl
  | parsed nm rows =>
    cases nm with
    | none =>
      cases h
      rfl
    | some nm0 =>
      cases rows with
      | none =>
        cases h
        rfl
      | some rows0 => cases h

/-- One `_load_data` step on a file that loads. -/
theorem load_data_cons_ok (db db2 : CommodityDatabase)
    (f : Str × CleanedFile) (rest : List (Str × CleanedFile))
    (h : _load_cleaned_data db f.2 = .ok db2) :
    _load_data db (f :: rest) = _load_data db2 rest := by
  simp only [_load_data]
  rw [h]

/-- One `_load_data` step on a file that raises. -/
theorem load_data_cons_error (db : CommodityDatabase)
    (f : Str × CleanedFile) (rest : List (Str × CleanedFile)) (e : Str)
    (h : _load_cleaned_data db f.2 = .error e) :
    _load_data db (f :: rest) =
      ((_load_data db rest).1,
       loadErrLine f.1 e :: (_load_data db rest).2) := by
  simp only [_load_data]
  rw [h]

/-- `_load_data` over a concatenation: the second half continues from the
state the first half reaches, and the printed lines concatenate. -/
theorem load_data_append (db : CommodityDatabase)
    (xs ys : List (Str × CleanedFile)) :
    _load_data db (xs ++ ys) =
      ((_load_data (_load_data db xs).1 ys).1,
       (_load_data db xs).2 ++ (_load_data (_load_data db xs).1 ys).2) := by
  induction xs generalizing db with
  | nil => simp [_load_data]
  | cons f rest ih =>
    rw [List.cons_append]
    cases hf : _load_cleaned_data db f.2 with
    | ok db2 =>
      rw [load_data_cons_ok db db2 f (rest ++ ys) hf,
        load_data_cons_ok db db2 f rest hf, ih db2]
    | error e =>
      rw [load_data_cons_error db f (rest ++ ys) e hf,
        load_data_cons_error db f rest e hf, ih db]
      simp

/-- `rawFileError` names exactly the exception `process_raw_json` raises. -/
theorem process_raw_json_error (stem fname : Str) (f : RawFile) (e : Str)
    (h : rawFileError f = some e) :
    process_raw_json stem fname f = .error e := by
  cases f with
  | unreadable m =>
    cases h
    rfl
  | parsed pages => cases h

/-- One `clean_all_tables` step on a file that cleans. -/
theorem clean_all_cons_ok (stem fname : Str) (f : RawFile)
    (rest : List (Str × Str × RawFile)) (t : CleanedTable)
    (h : process_raw_json stem fname f = .ok t) :
    clean_all_tables ((stem, fname, f) :: rest) =
      (save_cleaned_data t :: (clean_all_tables rest).1,
       (clean_all_tables rest).2) := by
  simp only [clean_all_tables]
  rw [h]

/-- One `clean_all_tables` step on a file that raises. -/
theorem clean_all_cons_error (stem fname : Str) (f : RawFile)
    (rest : List (Str × Str × RawFile)) (e : Str)
    (h : process_raw_json stem fname f = .error e) :
    clean_all_tables ((stem, fname, f) :: rest) =
      ((clean_all_tables rest).1,
       cleanErrLine fname e :: (clean_all_tables rest).2) := by
  simp only [clean_all_tables]
  rw [h]

/-- `clean_all_tables` over a concatenation: outputs and printed lines
concatenate. -/
theorem clean_all_tables_append (xs ys : List (Str × Str × RawFile)) :
    clean_all_tables (xs ++ ys) =
      ((clean_all_tables xs).1 ++ (clean_all_tables ys).1,
       (clean_all_tables xs).2 ++ (clean_all_tables ys).2) := by
  induction xs with
  | nil => simp [clean_all_tables]
  | cons x rest ih =>
    obtain ⟨stem, fname, f⟩ := x
    rw [List.cons_append]
    cases hf : process_raw_json stem fname f with
    | ok t =>
      rw [clean_all_cons_ok stem fname f (rest ++ ys) t hf,
        clean_all_cons_ok stem fname f rest t hf, ih]
      simp
    | error e =>
      rw [clean_all_cons_error stem fname f (rest ++ ys) e hf,
        clean_all_cons_error stem fname f rest e hf, ih]
      simp

/-- C4: a file whose processing raises is caught and printed, and loading
continues with the remaining files, both in `_load_data` over the cleaned
files and in `clean_all_tables` over the raw files. -/
theorem claim4_catch_print_continue :
    (∀ (db : CommodityDatabase) pre fname (f : CleanedFile) e post,
      fileError f = some e →
      _load_data db (pre ++ (fname, f) :: post) =
        ((_load_data (_load_data db pre).1 post).1,
         (_load_data db pre).2 ++ loadErrLine fname e ::
           (_load_data (_load_data db pre).1 post).2)) ∧
    (∀ pre stem fname (f : RawFile) e post,
      rawFileError f = some e →
      clean_all_tables (pre ++ (stem, fname, f) :: post) =
        ((clean_all_tables pre).1 ++ (clean_all_tables post).1,
         (clean_all_tables pre).2 ++ cleanErrLine fname e ::
           (clean_all_tables post).2)) := by
  constructor
  · intro db pre fname f e post hf
    rw [load_data_append db pre ((fname, f) :: post),
      load_data_cons_error _ (fname, f) post e
        (load_cleaned_data_error _ f e hf)]
  · intro pre stem fname f e post hf
    rw [clean_all_tables_append pre ((stem, fname, f) :: post),
      clean_all_cons_error stem fname f post e
        (process_raw_json_error stem fname f e hf)]

/-- Witness for C4: one unreadable file among readable ones is reported and
the other files are still processed. -/
theorem claim4_catch_print_continue_witness :
    _load_data {} [(s "a", CleanedFile.parsed (some (s "t")) (some [])),
        (s "b", CleanedFile.unreadable (s "boom")),
        (s "c", CleanedFile.parsed (some (s "t")) (some []))] =
      ({}, [loadErrLine (s "b") (s "boom")]) := by
  have h := claim4_catch_print_continue.1 {}
    [(s "a", CleanedFile.parsed (some (s "t")) (some []))] (s "b")
    (CleanedFile.unreadable (s "boom")) (s "boom")
    [(s "c", CleanedFile.parsed (some (s "t")) (some []))] rfl
  simpa using h

/-! ### The origin-state check of `fruit_fly_assessment` -/

/-- A list with a known concrete prefix differs from any list whose
corresponding prefix differs. -/
theorem append_ne_of_take_ne (p n t : Str) (h : t.take p.length ≠ p) :
    p ++ n ≠ t := by
  intro e
  apply h
  rw [← e, List.take_left]

/-- `joinLines` keeps the head character of the first line. -/
theorem joinLines_head_cons (x : Char) (xs : Str) (rest : List Str) :
    ∃ t, joinLines ((x :: xs) :: rest) = x :: t := by
  cases rest with
  | nil => exact ⟨xs, rfl⟩
  | cons l2 r2 => exact ⟨xs ++ '\n' :: joinLines (l2 :: r2), rfl⟩

/-- The response list starts with the commodity header line. -/
theorem response_parts_head (c : CommodityInfo) (origin : Str)
    (a : RiskAssessment) :
    ∃ t, response_parts c origin a =
      ('*' :: (s "*Commodity**: " ++ c.name)) :: t :=
  ⟨(s "**Origin State**: " ++ origin) :: (s "**Destination**: Tasmania") ::
    (s "") :: (hostStatusBlock c ++ riskSection c a ++ footerBlock), rfl⟩

/-- The not-found error differs from the missing-origin error. -/
theorem not_found_ne (nm : Str) :
    s "ERROR: Commodity \x27" ++ nm ++
      s "\x27 not found in fruit fly host database." ≠ originErrorMsg := by
  rw [List.append_assoc]
  exact append_ne_of_take_ne (s "ERROR: Commodity \x27") _ _ (by decide)

/-- Any error entry of a risk assessment differs from the missing-origin
error. -/
theorem assess_error_ne (db : FruitFlyDb) (nm st e : Str)
    (h : (assess_fruit_fly_risk db nm st).error = some e) :
    e ≠ originErrorMsg := by
  unfold assess_fruit_fly_risk at h
  split at h
  · dsimp only at h
    have h2 := Option.some.inj h
    rw [← h2]
    exact not_found_ne nm
  · simp [assess_commodity, mkAssessment] at h

/-- A formatted response differs from the missing-origin error. -/
theorem response_ne (c : CommodityInfo) (origin : Str) (a : RiskAssessment) :
    joinLines (response_parts c origin a) ≠ originErrorMsg := by
  obtain ⟨t, ht⟩ := response_parts_head c origin a
  rw [ht]
  obtain ⟨t2, ht2⟩ := joinLines_head_cons '*' _ t
  rw [ht2]
  intro he
  rw [show originErrorMsg = 'E' ::
    s "RROR: Origin state is required for fruit fly assessment. Please specify the state of origin."
    from rfl] at he
  injection he with h1 _
  exact absurd h1 (by decide)

/-- Whatever happens after the origin check, the result is never the
missing-origin error message. -/
theorem ffa_after_origin_ne (db : FruitFlyDb) (rn origin : Str) :
    ffa_after_origin db rn origin ≠ originErrorMsg := by
  simp only [ffa_after_origin]
  split
  · exact not_found_ne _
  · split
    · next heq => exact assess_error_ne db _ origin _ heq
    · exact response_ne _ _ _

/-- C6: `fruit_fly_assessment` returns the missing-origin error exactly when
no origin state is supplied — neither as the `origin_state` argument nor as
(non-whitespace) text after a comma in the query — and in that case the
result does not depend on the database at all: no lookup or risk assessment
feeds it. -/
theorem claim6_origin_error_iff (db : FruitFlyDb) (query : Str)
    (os : Option Str) :
    (fruit_fly_assessment db query os = originErrorMsg ↔
      originSupplied query os = false) ∧
    (originSupplied query os = false →
      ∀ db2 : FruitFlyDb, fruit_fly_assessment db query os =
        fruit_fly_assessment db2 query os) := by
  simp only [fruit_fly_assessment]
  by_cases hcond : (query.contains ',' && !truthy os) = true
  · have hparts := hcond
    rw [Bool.and_eq_true] at hparts
    have hcontains : query.contains ',' = true := hparts.1
    have hosf : truthy os = false := by
      have := hparts.2
      rwa [Bool.not_eq_true'] at this
    rw [if_pos hcond]
    by_cases hemp : strip (splitFirstComma query).2 = []
    · have hif : (!truthy (strip (splitFirstComma query).1,
          some (strip (splitFirstComma query).2)).2) = true := by
        simp [truthy, hemp]
      rw [if_pos hif]
      have hsup : originSupplied query os = false := by
        unfold originSupplied
        rw [hosf, hcontains, hemp]
        rfl
      exact ⟨by simp [hsup], fun _ db2 => by rw [if_pos hif]⟩
    · have hif : ¬(!truthy (strip (splitFirstComma query).1,
          some (strip (splitFirstComma query).2)).2) = true := by
        simp [truthy, List.isEmpty_iff]
        exact hemp
      rw [if_neg hif]
      have hsup : originSupplied query os = true := by
        unfold originSupplied
        rw [hosf, hcontains]
        simp [List.isEmpty_iff]
        exact hemp
      constructor
      · constructor
        · intro he
          exact absurd he (ffa_after_origin_ne db _ _)
        · intro hs
          rw [hsup] at hs
          cases hs
      · intro hs
        rw [hsup] at hs
        cases hs
  · rw [if_neg hcond]
    by_cases hos : truthy os = true
    · have hif : ¬(!truthy (query, os).2) = true := by simp [hos]
      rw [if_neg hif]
      have hsup : originSupplied query os = true := by
        unfold originSupplied
        rw [hos]
        rfl
      constructor
      · constructor
        · intro he
          exact absurd he (ffa_after_origin_ne db _ _)
        · intro hs
          rw [hsup] at hs
          cases hs
      · intro hs
        rw [hsup] at hs
        cases hs
    · have hosf : truthy os = false := by
        rwa [Bool.not_eq_true] at hos
      have hcontains : query.contains ',' = false := by
        by_contra hc
        rw [Bool.not_eq_false] at hc
        exact hcond (by rw [hc, hosf]; rfl)
      have hif : (!truthy (query, os).2) = true := by simp [hosf]
      rw [if_pos hif]
      have hsup : originSupplied query os = false := by
        unfold originSupplied
        rw [hosf, hcontains]
        rfl
      constructor
      · simp [hsup]
      · intro _ db2
        rw [if_pos hif]

/-- Witness for C6: with no origin state anywhere, the tool returns the
missing-origin error. -/
theorem claim6_origin_error_iff_witness :
    fruit_fly_assessment {} (s "apple") none = originErrorMsg :=
  (claim6_origin_error_iff {} (s "apple") none).1.mpr (by decide)

/-! ### Membership facts for the fruit-fly response (C1) -/

/-- QFF is present exactly in QLD, NSW, VIC and NT per the pest table. -/
theorem qff_present_iff (st : Str) :
    pest_present_in_state (s "QFF") st = true ↔
      st = s "QLD" ∨ st = s "NSW" ∨ st = s "VIC" ∨ st = s "NT" := by
  have h : dget table_1.pest_info (s "QFF") = some
      { name := s "Queensland Fruit Fly",
        present_in := [s "QLD", s "NSW", s "VIC", s "NT"] } := by rfl
  unfold pest_present_in_state
  rw [h]
  rw [show ([s "QLD", s "NSW", s "VIC", s "NT"].contains st = true) ↔
      st ∈ [s "QLD", s "NSW", s "VIC", s "NT"] from List.elem_iff]
  simp only [List.mem_cons, List.not_mem_nil, or_false]

/-- MFF is present exactly in WA per the pest table. -/
theorem mff_present_iff (st : Str) :
    pest_present_in_state (s "MFF") st = true ↔ st = s "WA" := by
  have h : dget table_1.pest_info (s "MFF") = some
      { name := s "Mediterranean Fruit Fly",
        present_in := [s "WA"] } := by rfl
  unfold pest_present_in_state
  rw [h]
  rw [show ([s "WA"].contains st = true) ↔ st ∈ [s "WA"] from List.elem_iff]
  simp only [List.mem_cons, List.not_mem_nil, or_false]

/-- Membership distributes over an append of two excluded lists. -/
theorem notin_append {t : Str} {A B : List Str} (ha : t ∉ A) (hb : t ∉ B) :
    t ∉ A ++ B := by
  intro h
  rcases List.mem_append.1 h with h | h
  · exact ha h
  · exact hb h

/-- None of the three marker lines occurs in the response header, whatever
the commodity name and origin are. -/
theorem targets_notin_header (t nm origin : Str)
    (ht : t = riskDetectedLine ∨ t = ica1Line ∨ t = ica2Line) :
    t ∉ headerBlock nm origin := by
  intro hmem
  simp only [headerBlock, List.mem_cons, List.not_mem_nil, or_false] at hmem
  rcases ht with rfl | rfl | rfl <;>
    rcases hmem with h | h | h | h <;>
    first
      | exact absurd h.symm
          (append_ne_of_take_ne (s "**Commodity**: ") _ _ (by decide))
      | exact absurd h.symm
          (append_ne_of_take_ne (s "**Origin State**: ") _ _ (by decide))
      | exact absurd h (by decide)

/-- Every line of the host-status section is one of five fixed strings. -/
theorem hostStatusBlock_subset (c : CommodityInfo) :
    ∀ l ∈ hostStatusBlock c, l ∈ [s "**Fruit Fly Host Status**:",
      s "• Queensland Fruit Fly (QFF) host: YES",
      s "• Mediterranean Fruit Fly (MFF) host: YES", s "",
      s "**Fruit Fly Host Status**: NOT a fruit fly host"] := by
  intro l hl
  unfold hostStatusBlock at hl
  split at hl
  · split at hl <;> split at hl <;>
      simp_all [List.mem_append, List.mem_cons] <;> tauto
  · simp_all [List.mem_cons]
    tauto

/-- None of the three marker lines occurs in the host-status section. -/
theorem targets_notin_host (t : Str) (c : CommodityInfo)
    (ht : t = riskDetectedLine ∨ t = ica1Line ∨ t = ica2Line) :
    t ∉ hostStatusBlock c := by
  intro hmem
  have h5 := hostStatusBlock_subset c t hmem
  rcases ht with rfl | rfl | rfl <;> exact absurd h5 (by decide)

/-- None of the three marker lines occurs in the footer. -/
theorem targets_notin_footer (t : Str)
    (ht : t = riskDetectedLine ∨ t = ica1Line ∨ t = ica2Line) :
    t ∉ footerBlock := by
  rcases ht with rfl | rfl | rfl <;> decide

/-- No marker line equals the QFF detail line. -/
theorem targets_ne_detail_q (t st : Str)
    (ht : t = riskDetectedLine ∨ t = ica1Line ∨ t = ica2Line) :
    t ≠ s "• " ++ (s "Queensland Fruit Fly (QFF) is present in " ++ st) := by
  have he : s "• " ++ (s "Queensland Fruit Fly (QFF) is present in " ++ st) =
      s "• Queensland Fruit Fly (QFF) is present in " ++ st := by
    rw [← List.append_assoc]
    rfl
  rw [he]
  rcases ht with rfl | rfl | rfl <;>
    exact (append_ne_of_take_ne _ _ _ (by decide)).symm

/-- No marker line equals the MFF detail line. -/
theorem targets_ne_detail_m (t st : Str)
    (ht : t = riskDetectedLine ∨ t = ica1Line ∨ t = ica2Line) :
    t ≠ s "• " ++
      (s "Mediterranean Fruit Fly (MFF) is present in " ++ st) := by
  have he : s "• " ++
      (s "Mediterranean Fruit Fly (MFF) is present in " ++ st) =
      s "• Mediterranean Fruit Fly (MFF) is present in " ++ st := by
    rw [← List.append_assoc]
    rfl
  rw [he]
  rcases ht with rfl | rfl | rfl <;>
    exact (append_ne_of_take_ne _ _ _ (by decide)).symm

/-- No marker line occurs among the bulleted risk details. -/
theorem targets_notin_details (t st : Str) (q m : Bool)
    (ht : t = riskDetectedLine ∨ t = ica1Line ∨ t = ica2Line) :
    t ∉ ((if q then [s "Queensland Fruit Fly (QFF) is present in " ++ st]
          else []) ++
         (if m then
            [s "Mediterranean Fruit Fly (MFF) is present in " ++ st]
          else [])).map (fun detail => s "• " ++ detail) := by
  have h1 := targets_ne_detail_q t st ht
  have h2 := targets_ne_detail_m t st ht
  cases q <;> cases m <;> simp_all

/-- Projection of the assessment record: QFF flag. -/
theorem mkAssessment_qff (q m : Bool) (st : Str) :
    (mkAssessment q m st).qff_risk = q := rfl

/-- Projection of the assessment record: MFF flag. -/
theorem mkAssessment_mff (q m : Bool) (st : Str) :
    (mkAssessment q m st).mff_risk = m := rfl

/-- Projection of the assessment record: detail lines. -/
theorem mkAssessment_details (q m : Bool) (st : Str) :
    (mkAssessment q m st).risk_details =
      (if q then [s "Queensland Fruit Fly (QFF) is present in " ++ st]
       else []) ++
      (if m then [s "Mediterranean Fruit Fly (MFF) is present in " ++ st]
       else []) := rfl

/-- The risk-detected banner appears in the risk section exactly when some
risk flag is set. -/
theorem det_mem_riskSection (c : CommodityInfo) (st : Str) (q m : Bool) :
    riskDetectedLine ∈ riskSection c (mkAssessment q m st) ↔
      (q = true ∨ m = true) := by
  unfold riskSection
  rw [mkAssessment_qff, mkAssessment_mff, mkAssessment_details]
  cases q <;> cases m
  case false.false =>
    rw [if_neg (by decide)]
    constructor
    · intro hmem
      exfalso
      revert hmem
      cases hf : c.is_fruit_fly_host <;> decide
    · intro h
      rcases h with h | h <;> cases h
  case false.true =>
    rw [if_pos (by decide)]
    constructor
    · intro _
      exact Or.inr rfl
    · intro _
      apply List.mem_append_left
      apply List.mem_append_left
      apply List.mem_append_left
      apply List.mem_append_left
      apply List.mem_append_left
      decide
  case true.false =>
    rw [if_pos (by decide)]
    constructor
    · intro _
      exact Or.inl rfl
    · intro _
      apply List.mem_append_left
      apply List.mem_append_left
      apply List.mem_append_left
      apply List.mem_append_left
      apply List.mem_append_left
      decide
  case true.true =>
    rw [if_pos (by decide)]
    constructor
    · intro _
      exact Or.inl rfl
    · intro _
      apply List.mem_append_left
      apply List.mem_append_left
      apply List.mem_append_left
      apply List.mem_append_left
      apply List.mem_append_left
      decide

/-- The ICA-1 marker appears in the risk section exactly when the QFF risk
flag is set. -/
theorem ica1_mem_riskSection (c : CommodityInfo) (st : Str) (q m : Bool) :
    ica1Line ∈ riskSection c (mkAssessment q m st) ↔ q = true := by
  unfold riskSection
  rw [mkAssessment_qff, mkAssessment_mff, mkAssessment_details]
  have hd := targets_notin_details ica1Line st q m (Or.inr (Or.inl rfl))
  cases q <;> cases m
  case false.false =>
    rw [if_neg (by decide)]
    constructor
    · intro hmem
      exfalso
      revert hmem
      cases hf : c.is_fruit_fly_host <;> decide
    · intro h
      cases h
  case false.true =>
    rw [if_pos (by decide)]
    constructor
    · intro hmem
      exact absurd hmem (notin_append (notin_append (notin_append
        (notin_append (notin_append (by decide) hd) (by decide))
        (by decide)) (by decide)) (by decide))
    · intro h
      cases h
  case true.false =>
    rw [if_pos (by decide)]
    refine ⟨fun _ => rfl, fun _ => ?_⟩
    apply List.mem_append_left
    apply List.mem_append_left
    apply List.mem_append_right
    decide
  case true.true =>
    rw [if_pos (by decide)]
    refine ⟨fun _ => rfl, fun _ => ?_⟩
    apply List.mem_append_left
    apply List.mem_append_left
    apply List.mem_append_right
    decide

/-- The ICA-2 marker appears in the risk section exactly when the MFF risk
flag is set. -/
theorem ica2_mem_riskSection (c : CommodityInfo) (st : Str) (q m : Bool) :
    ica2Line ∈ riskSection c (mkAssessment q m st) ↔ m = true := by
  unfold riskSection
  rw [mkAssessment_qff, mkAssessment_mff, mkAssessment_details]
  have hd := targets_notin_details ica2Line st q m (Or.inr (Or.inr rfl))
  cases q <;> cases m
  case false.false =>
    rw [if_neg (by decide)]
    constructor
    · intro hmem
      exfalso
      revert hmem
      cases hf : c.is_fruit_fly_host <;> decide
    · intro h
      cases h
  case true.false =>
    rw [if_pos (by decide)]
    constructor
    · intro hmem
      exact absurd hmem (notin_append (notin_append (notin_append
        (notin_append (notin_append (by decide) hd) (by decide))
        (by decide)) (by decide)) (by decide))
    · intro h
      cases h
  case false.true =>
    rw [if_pos (by decide)]
    refine ⟨fun _ => rfl, fun _ => ?_⟩
    apply List.mem_append_left
    apply List.mem_append_right
    decide
  case true.true =>
    rw [if_pos (by decide)]
    refine ⟨fun _ => rfl, fun _ => ?_⟩
    apply List.mem_append_left
    apply List.mem_append_right
    decide

/-- A marker line occurs in the full response exactly when it occurs in the
risk section. -/
theorem mem_response_iff_risk (t : Str) (c : CommodityInfo) (origin : Str)
    (a : RiskAssessment)
    (ht : t = riskDetectedLine ∨ t = ica1Line ∨ t = ica2Line) :
    (t ∈ response_parts c origin a ↔ t ∈ riskSection c a) := by
  unfold response_parts
  constructor
  · intro h
    rcases List.mem_append.1 h with h | h
    · rcases List.mem_append.1 h with h | h
      · rcases List.mem_append.1 h with h | h
        · exact absurd h (targets_notin_header t c.name origin ht)
        · exact absurd h (targets_notin_host t c ht)
      · exact h
    · exact absurd h (targets_notin_footer t ht)
  · intro h
    exact List.mem_append_left _ (List.mem_append_right _ h)

/-- The assessment of a commodity is the record of its two boolean risk
combinations. -/
theorem assess_commodity_eq (c : CommodityInfo) (st : Str) :
    assess_commodity c st =
      mkAssessment (c.qff_host && pest_present_in_state (s "QFF") st)
        (c.mff_host && pest_present_in_state (s "MFF") st) st := rfl

/-- C1: for every commodity record and origin state, the assessment flags a
QFF (resp. MFF) risk exactly when the commodity is a QFF (resp. MFF) host
and that fly is present in the origin state — where, per the pest table,
QFF is present exactly in QLD, NSW, VIC, NT and MFF exactly in WA — and the
response contains the risk banner exactly when some risk holds, the ICA-1
conditions exactly when the QFF risk holds, and the ICA-2 conditions
exactly when the MFF risk holds. -/
theorem claim1_fruit_fly_risk_iff (c : CommodityInfo) (st : Str) :
    ((assess_commodity c st).qff_risk = true ↔
       c.qff_host = true ∧ pest_present_in_state (s "QFF") st = true) ∧
    ((assess_commodity c st).mff_risk = true ↔
       c.mff_host = true ∧ pest_present_in_state (s "MFF") st = true) ∧
    (pest_present_in_state (s "QFF") st = true ↔
      st = s "QLD" ∨ st = s "NSW" ∨ st = s "VIC" ∨ st = s "NT") ∧
    (pest_present_in_state (s "MFF") st = true ↔ st = s "WA") ∧
    (riskDetectedLine ∈ response_parts c st (assess_commodity c st) ↔
      (assess_commodity c st).qff_risk = true ∨
      (assess_commodity c st).mff_risk = true) ∧
    (ica1Line ∈ response_parts c st (assess_commodity c st) ↔
      (assess_commodity c st).qff_risk = true) ∧
    (ica2Line ∈ response_parts c st (assess_commodity c st) ↔
      (assess_commodity c st).mff_risk = true) := by
  refine ⟨?_, ?_, qff_present_iff st, mff_present_iff st, ?_, ?_, ?_⟩
  · rw [assess_commodity_eq, mkAssessment_qff, Bool.and_eq_true]
  · rw [assess_commodity_eq, mkAssessment_mff, Bool.and_eq_true]
  · rw [assess_commodity_eq,
      mem_response_iff_risk _ _ _ _ (Or.inl rfl),
      det_mem_riskSection, mkAssessment_qff, mkAssessment_mff]
  · rw [assess_commodity_eq,
      mem_response_iff_risk _ _ _ _ (Or.inr (Or.inl rfl)),
      ica1_mem_riskSection, mkAssessment_qff]
  · rw [assess_commodity_eq,
      mem_response_iff_risk _ _ _ _ (Or.inr (Or.inr rfl)),
      ica2_mem_riskSection, mkAssessment_mff]
